import Mathlib

/-!
Shallow embedding of danio's schema/migration differ and SQL compiler
(src/danio/schema.py, with the legacy variant in src/danio/model.py where
noted), together with proofs about the spec's claims.

Python strings are modelled as Lean `String`s; the Python string methods
used by the source (`str.lower`, `str.replace`, `in`, `str.split`,
`str.join`) are re-implemented below with Python's semantics so that every
definition stays executable and kernel-reducible.
-/

namespace Danio

/-- Python `s.startswith(p)` on character lists. -/
def charsStartWith : List Char → List Char → Bool
  | _, [] => true
  | [], _ :: _ => false
  | c :: cs, p :: ps => c == p && charsStartWith cs ps

/-- Python `s.replace(pat, rep)` on character lists, with an explicit fuel
for structural recursion (every step consumes at least one character, so
fuel equal to the list length is always enough): replace non-overlapping
occurrences left to right.  An empty pattern leaves the string unchanged
(the source only ever replaces the non-empty patterns "serial" and
"integer"). -/
def charsReplaceF (pat rep : List Char) : Nat → List Char → List Char
  | 0, l => l
  | _ + 1, [] => []
  | fuel + 1, c :: cs =>
    if pat ≠ [] ∧ charsStartWith (c :: cs) pat then
      rep ++ charsReplaceF pat rep fuel (List.drop (pat.length - 1) cs)
    else
      c :: charsReplaceF pat rep fuel cs

/-- Python `s.replace(pat, rep)` on character lists. -/
def charsReplace (pat rep l : List Char) : List Char :=
  charsReplaceF pat rep l.length l

/-- Python `pat in s` on character lists. -/
def charsContains : List Char → List Char → Bool
  | [], pat => charsStartWith [] pat
  | c :: cs, pat => charsStartWith (c :: cs) pat || charsContains cs pat

/-- Python `s.lower()`. -/
def pyLower (s : String) : String := ⟨s.data.map Char.toLower⟩

/-- Python `s.replace(pat, rep)`. -/
def pyReplace (s pat rep : String) : String := ⟨charsReplace pat.data rep.data s.data⟩

/-- Python `pat in s` (substring containment). -/
def pyIn (pat s : String) : Bool := charsContains s.data pat.data

/-- Python `s.split(sep)[0]` for a one-character separator: the prefix of `s`
before the first occurrence of `sep` (all of `s` if absent). -/
def pySplitHead (s : String) (sep : Char) : String := ⟨s.data.takeWhile (· ≠ sep)⟩

/-- Python `sep.join(parts)`. -/
def pyJoin (sep : String) : List String → String
  | [] => ""
  | [s] => s
  | s :: rest => s ++ sep ++ pyJoin sep rest

/-- The `join` helper of schema.py: joins the contents after filtering out
falsy (empty) strings, default delimiter a single space. -/
def joinNonEmpty (delimiter : String) (contents : List String) : String :=
  pyJoin delimiter (contents.filter (fun c => c ≠ ""))

/-- Decimal digits, most significant first, with fuel for structural
recursion (fuel at least the number itself is always enough). -/
def natToDigitsF : Nat → Nat → List Nat
  | 0, n => [n]
  | fuel + 1, n => if n < 10 then [n] else natToDigitsF fuel (n / 10) ++ [n % 10]

/-- Decimal digits of a natural number, most significant first. -/
def natToDigits (n : Nat) : List Nat := natToDigitsF n n

/-- Character for one decimal digit. -/
def digitChr (d : Nat) : Char := Char.ofNat (48 + d)

/-- Python `str(n)` for a non-negative integer (used by `f"var{index}"`). -/
def pyStr (n : Nat) : String := ⟨(natToDigits n).map digitChr⟩

/-- Python `str(i)` for an integer. -/
def intStr (i : Int) : String :=
  if i < 0 then "-" ++ pyStr i.natAbs else pyStr i.natAbs

/-- Literal SQL values flowing through the compiler.  The source passes
Python objects around; the claims only exercise integers and strings. -/
inductive Val where
  | int (n : Int)
  | str (s : String)
deriving DecidableEq

/-- The `V` helper of schema.py: render one literal with `literal_binds`
(sqlalchemy).  Integers render in decimal; strings render single-quoted with
embedded quotes doubled. -/
def V : Val → String
  | .int n => intStr n
  | .str s => "'" ++ pyReplace s "'" "''" ++ "'"

/-- `Database.Type` (database.py): the three dialects. -/
inductive DBType where
  | MYSQL
  | POSTGRES
  | SQLITE
deriving DecidableEq

/-- `Database.get_quote` (database.py line 116): the identifier quote
character per dialect. -/
def DBType.getQuote : DBType → String
  | .POSTGRES => "\""
  | _ => "`"

/-- Modelled from the spec: `Database.Type.quote`, the identifier-quoting
helper used throughout schema.py, is not part of the sources under src/
(only `Database.get_quote` is).  Per the spec ("supplies identifier
quoting") and `get_quote`, it wraps the name in the dialect's quote
character. -/
def DBType.quote (t : DBType) (s : String) : String := t.getQuote ++ s ++ t.getQuote

/-- `Field` (schema.py): one column descriptor.  `default = none` models the
`NoDefault` sentinel; a concrete default is already resolved to a value
(`default_value` resolves callables, modelled as pure data here).  The
`enum` member is omitted: every claim concerns plain (enum-free) fields,
for which `to_python`/`to_database` are the identity. -/
structure Field where
  name : String := ""
  model_name : String := ""
  default : Option Val := none
  type : String := ""
  primary : Bool := false
  auto_increment : Bool := false
  not_null : Bool := true
  comment : String := ""
deriving DecidableEq

/-- `Field.to_database` (schema.py line 144): identity for enum-free fields. -/
def Field.to_database (_f : Field) (v : Val) : Val := v

/-- `Field.to_sql` (schema.py lines 128-136), exact f-string spacing kept. -/
def Field.to_sql (f : Field) (t : DBType) : String :=
  let nn := if f.not_null then "NOT NULL" else ""
  match t with
  | .MYSQL =>
    t.quote f.name ++ " " ++ f.type ++ " " ++ nn ++ " " ++
      (if f.auto_increment then "AUTO_INCREMENT" else "") ++
      " COMMENT '" ++ f.comment ++ "'"
  | .POSTGRES =>
    t.quote f.name ++ " " ++ f.type ++ " " ++
      (if f.primary then "PRIMARY KEY" else "") ++ " " ++ nn
  | .SQLITE =>
    t.quote f.name ++ " " ++ f.type ++ " " ++
      (if f.primary then "PRIMARY KEY" else "") ++ " " ++
      (if f.auto_increment then "AUTOINCREMENT" else "") ++ " " ++
      (if f.primary then "" else nn)

/-- `Index` (schema.py): an ordered list of fields plus a unique flag and a
name (the random name generation of `__post_init__` is irrelevant to the
claims; names are taken as given). -/
structure Index where
  fields : List Field
  unique : Bool
  name : String := ""
deriving DecidableEq

/-- `Index.to_sql` (schema.py lines 308-317). -/
def Index.to_sql (i : Index) (t : DBType) : String :=
  match t with
  | .MYSQL =>
    joinNonEmpty " "
      [(if i.unique then "UNIQUE " else ""), "KEY", t.quote i.name,
        "(" ++ pyJoin ", " (i.fields.map (fun f => t.quote f.name)) ++ ")"]
  | _ => ""

/-- `Schema` (schema.py): a named ordered collection of fields and indexes
(`relation_fields` omitted; it never affects diffing or SQL). -/
structure Schema where
  name : String
  indexes : List Index := []
  fields : List Field := []
  abstracted : Bool := false
deriving DecidableEq

/-- `Schema.primary_field` (schema.py lines 348-353): first primary field,
`SchemaException` when absent. -/
def Schema.primary_field (s : Schema) : Except String Field :=
  match s.fields.find? (fun f => f.primary) with
  | some f => .ok f
  | none => .error "Primary field not found!"

/-- Python's `{f.name: f for f in fields}[n]`: dict comprehension keeps the
last field with a given name. -/
def lookupLast (l : List Field) (n : String) : Option Field :=
  (l.filter (fun f => f.name == n)).getLast?

/-- Type normalization inside `Schema.__sub__` (schema.py lines 365-377):
lowercase, `serial`→`int`, `integer`→`int`, and for int-like types drop a
parenthesised length suffix. -/
def normType (ty : String) : String :=
  let t := pyLower ty
  let t := pyReplace t "serial" "int"
  let t := pyReplace t "integer" "int"
  if pyIn "int" t then pySplitHead t '(' else t

/-- The diffing key of an index (schema.py lines 381-386):
`(unique, tuple of field names)`. -/
def indexKey (i : Index) : Bool × List String := (i.unique, i.fields.map (fun f => f.name))

/-- Python dict `{key(i): i for i in l}[k]`: the last index with key `k`. -/
def lastIndexWith (l : List Index) (k : Bool × List String) : Option Index :=
  (l.filter (fun i => indexKey i == k)).getLast?

/-- `Migration` (schema.py lines 485-493). -/
structure Migration where
  schema : Option Schema
  old_schema : Option Schema
  drop_fields : List Field := []
  add_fields : List Field := []
  change_type_fields : List Field := []
  add_indexes : List Index := []
  drop_indexes : List Index := []
deriving DecidableEq

/-- `Schema.__sub__` (schema.py lines 355-400).  Index dictionaries keep the
last index per key, key sets iterate in first-insertion order. -/
def Schema.sub (a : Schema) : Option Schema → Migration
  | none => { schema := some a, old_schema := none }
  | some b =>
    let change := a.fields.filter (fun f =>
      match lookupLast b.fields f.name with
      | some g => normType f.type ≠ normType g.type
      | none => false)
    let aKeys := (a.indexes.map indexKey).eraseDups
    let bKeys := (b.indexes.map indexKey).eraseDups
    { schema := some a
      old_schema := some b
      add_indexes := (aKeys.filter (fun k => ! bKeys.contains k)).filterMap
        (lastIndexWith a.indexes)
      drop_indexes := (bKeys.filter (fun k => ! aKeys.contains k)).filterMap
        (lastIndexWith b.indexes)
      add_fields := a.fields.filter (fun f => (lookupLast b.fields f.name).isNone)
      drop_fields := b.fields.filter (fun f => (lookupLast a.fields f.name).isNone)
      change_type_fields := change }

/-- Run a fallible computation over each list element in order, stopping at
the first error (the Python `for` loops that build lists and may `raise`). -/
def mapExcept {α β : Type _} (fn : α → Except String β) : List α → Except String (List β)
  | [] => .ok []
  | a :: l => do
    let b ← fn a
    let bs ← mapExcept fn l
    pure (b :: bs)

/-- `Migration.__invert__` (schema.py lines 495-515).  The dictionary lookup
`old_fields[f.name]` raises `KeyError` when the name is absent, hence the
`Except`. -/
def Migration.invert (m : Migration) : Except String Migration := do
  let change ← match m.old_schema with
    | none => pure []
    | some old => match m.schema with
      | none => pure []
      | some s =>
        let changedNames := m.change_type_fields.map (fun f => f.name)
        mapExcept (fun f =>
          match lookupLast old.fields f.name with
          | some g => Except.ok g
          | none => Except.error "KeyError")
          (s.fields.filter (fun f => changedNames.contains f.name))
  pure { schema := m.old_schema
         old_schema := m.schema
         add_fields := m.drop_fields
         drop_fields := m.add_fields
         change_type_fields := change
         add_indexes := m.drop_indexes
         drop_indexes := m.add_indexes }

/-- `Schema.to_sql` (schema.py lines 417-457): the CREATE TABLE statement,
with separate CREATE INDEX statements for non-MySQL and COMMENT ON COLUMN
statements for PostgreSQL. -/
def Schema.to_sql (s : Schema) (t : DBType) : Except String String := do
  let pf ← s.primary_field
  let keys : List String :=
    if t = .MYSQL then
      ["PRIMARY KEY (" ++ t.quote pf.name ++ ")"] ++ s.indexes.map (fun i => i.to_sql t)
    else []
  let tablePostfix :=
    if t = .MYSQL then " ENGINE=InnoDB DEFAULT CHARSET=utf8mb4 COLLATE=utf8mb4_unicode_ci;"
    else ";"
  let sql := "CREATE TABLE " ++ t.quote s.name ++ " (\n" ++
    pyJoin ",\n" (s.fields.map (fun f => f.to_sql t) ++ keys) ++ "\n)" ++ tablePostfix
  let sql :=
    if t ≠ .MYSQL then
      sql ++ pyJoin "\n" (s.indexes.map (fun i =>
        "CREATE " ++ (if i.unique then "UNIQUE " else " ") ++ "INDEX " ++
          t.quote i.name ++ " on " ++ t.quote s.name ++ " (" ++
          pyJoin ", " (i.fields.map (fun f => t.quote f.name)) ++ ");"))
    else sql
  let sql :=
    if t = .POSTGRES then
      sql ++ pyJoin "\n" ((s.fields.filter (fun f => f.comment ≠ "")).map (fun f =>
        "COMMENT ON COLUMN \"" ++ s.name ++ "\".\"" ++ f.name ++ "\" is '" ++
          f.comment ++ "';"))
    else sql
  pure sql

/-- The ADD COLUMN statement(s) for one added field (schema.py lines
538-547): the column statement, extended with a DEFAULT literal when the
field has a default, followed for non-SQLite dialects by an immediate
DROP DEFAULT statement. -/
def addFieldSqls (t : DBType) (tbl : String) (f : Field) : List String :=
  let base := "ALTER TABLE " ++ t.quote tbl ++ " ADD COLUMN " ++ f.to_sql t
  match f.default with
  | none => [base]
  | some v =>
    (base ++ " DEFAULT " ++ V (f.to_database v)) ::
      (if t = .SQLITE then []
       else ["ALTER TABLE " ++ t.quote tbl ++ " ALTER COLUMN " ++ t.quote f.name ++
         " DROP DEFAULT"])

/-- Whether a dropped index's field names intersect the dropped fields'
names (schema.py line 530). -/
def idxTouchesDropped (i : Index) (dropped : List Field) : Bool :=
  i.fields.any (fun f => dropped.any (fun g => g.name == f.name))

/-- The statement emitted for one dropped index (schema.py lines 528-537):
on MySQL the drop is suppressed (`none`) when the index's field names
intersect the dropped fields' names; other dialects always emit a plain
`DROP INDEX`. -/
def dropIndexSql (t : DBType) (tbl : String) (dropped : List Field) (i : Index) :
    Option String :=
  if t = .MYSQL then
    if idxTouchesDropped i dropped then none
    else some ("ALTER TABLE " ++ t.quote tbl ++ " DROP INDEX " ++ t.quote i.name)
  else some ("DROP INDEX " ++ t.quote i.name)

/-- The statement for one type-changed field (schema.py lines 552-564):
SQLite raises, MySQL uses `MODIFY`, PostgreSQL uses `ALTER COLUMN ... TYPE`. -/
def typeChangeSql (t : DBType) (tbl : String) (f : Field) : Except String String :=
  match t with
  | .SQLITE => .error "Type changing not allowed in SQLite"
  | .MYSQL => .ok ("ALTER TABLE " ++ t.quote tbl ++ " MODIFY " ++
      t.quote f.name ++ " " ++ f.type)
  | .POSTGRES => .ok ("ALTER TABLE " ++ t.quote tbl ++ " ALTER COLUMN " ++
      t.quote f.name ++ " TYPE " ++ f.type)

/-- The statement list of an update-in-place migration (schema.py lines
523-568): rename, drop indexes (suppressed on MySQL when the index touches
a dropped field), add fields, drop fields, change types (SQLite: error),
add indexes. -/
def Migration.updateSqls (m : Migration) (s old : Schema) (t : DBType) :
    Except String (List String) := do
  let renameSec : List String :=
    if old.name ≠ s.name then
      ["ALTER TABLE " ++ t.quote old.name ++ " RENAME " ++ t.quote s.name]
    else []
  let dropIdxSec : List String :=
    m.drop_indexes.filterMap (dropIndexSql t s.name m.drop_fields)
  let addSec : List String := m.add_fields.flatMap (addFieldSqls t s.name)
  let dropSec : List String := m.drop_fields.map (fun f =>
    "ALTER TABLE " ++ t.quote s.name ++ " DROP COLUMN " ++ t.quote f.name)
  let changeSec ← mapExcept (typeChangeSql t s.name) m.change_type_fields
  let addIdxSec : List String := m.add_indexes.map (fun i =>
    "CREATE " ++ (if i.unique then "UNIQUE " else "") ++ "INDEX " ++ t.quote i.name ++
      " on " ++ t.quote s.name ++ " (" ++
      pyJoin "," (i.fields.map (fun f => t.quote f.name)) ++ ")")
  pure (renameSec ++ dropIdxSec ++ addSec ++ dropSec ++ changeSec ++ addIdxSec)

/-- Python `sqls[-1] += ";"` on a possibly-empty list. -/
def appendLastSemicolon : List String → List String
  | [] => []
  | [s] => [s ++ ";"]
  | s :: rest => s :: appendLastSemicolon rest

/-- `Migration.to_sql` (schema.py lines 517-572). -/
def Migration.to_sql (m : Migration) (t : DBType) : Except String String :=
  match m.schema, m.old_schema with
  | some s, none => s.to_sql t
  | none, some old =>
    pure (pyJoin ";\n" (appendLastSemicolon ["DROP TABLE " ++ t.quote old.name]))
  | some s, some old => do
    let l ← m.updateSqls s old t
    pure (pyJoin ";\n" (appendLastSemicolon l))
  | none, none => pure ""

/-- `Schema.__eq__` (schema.py lines 402-404): two schemas are equal iff the
diff compiles to empty SQL (default dialect MySQL). -/
def Schema.eq (a b : Schema) : Except String Bool := do
  let sql ← (a.sub (some b)).to_sql .MYSQL
  pure (sql == "")

/-- `SQLExpression.Operator` (schema.py lines 628-642). -/
inductive Opr where
  | ADD
  | SUB
  | MUL
  | DIV
  | EQ
  | NE
  | GT
  | GE
  | LT
  | LE
  | LK
  | IN
  | AND
  | OR
deriving DecidableEq

/-- The SQL spelling of each operator (`op.value`). -/
def Opr.value : Opr → String
  | .ADD => "+"
  | .SUB => "-"
  | .MUL => "*"
  | .DIV => "/"
  | .EQ => "="
  | .NE => "!="
  | .GT => ">"
  | .GE => ">="
  | .LT => "<"
  | .LE => "<="
  | .LK => "LIKE"
  | .IN => "IN"
  | .AND => "AND"
  | .OR => "OR"

mutual

/-- An operand in an expression tree: a literal value, a `Field` (rendered
as a quoted identifier), a nested `SQLMarker` (sub-expression), or a plain
collection (the argument of `IN`). -/
inductive Operand where
  | val (v : Val)
  | fld (f : Field)
  | sub (e : SQLExpression)
  | lst (os : List Operand)

/-- `SQLExpression` (schema.py lines 626-644): an optional base field plus
an ordered list of `(operator, operand)` pairs. -/
inductive SQLExpression where
  | mk (field : Option Field) (values : List (Opr × Operand))

end

/-- The `field` member of an `SQLExpression`. -/
def SQLExpression.field : SQLExpression → Option Field
  | .mk f _ => f

/-- The `values` member of an `SQLExpression`. -/
def SQLExpression.values : SQLExpression → List (Opr × Operand)
  | .mk _ vs => vs

/-- `Field.__eq__` (schema.py line 79): build an `=` expression. -/
def Field.eqE (f : Field) (o : Operand) : SQLExpression := .mk (some f) [(.EQ, o)]

/-- `SQLExpression.__and__` (schema.py line 688): append an `AND` operand. -/
def SQLExpression.andE (e : SQLExpression) (o : Operand) : SQLExpression :=
  .mk e.field (e.values ++ [(.AND, o)])

/-- `Field.contains` (schema.py lines 109-113, identical in model.py lines
115-119): an empty collection raises `ValueError("Empty values")` before any
expression is built; otherwise an `IN` expression is returned. -/
def Field.contains (f : Field) (values : List Operand) : Except String SQLExpression :=
  match values with
  | [] => .error "Empty values"
  | v :: vs => .ok (.mk (some f) [(.IN, .lst (v :: vs))])

/-- The mutable counter+dict pair of `SQLMarker` (schema.py lines 585-607):
`varIndex` models `ID.value`, `vars` the `_vars` dict (its keys are always
fresh, so dict insertion is list append).  `sync` (sharing the pair with a
child node) is modelled by threading this state. -/
structure MarkerState where
  varIndex : Nat := 0
  vars : List (String × Operand) := []

/-- The placeholder name `f"var{index}"`. -/
def varName (n : Nat) : String := "var" ++ pyStr n

/-- `SQLMarker.mark` (schema.py lines 599-602): take the next counter value,
bind the value under the fresh placeholder name, return the name. -/
def MarkerState.mark (st : MarkerState) (v : Operand) : String × MarkerState :=
  (varName st.varIndex,
    { varIndex := st.varIndex + 1, vars := st.vars ++ [(varName st.varIndex, v)] })

mutual

/-- `SQLMarker._parse` (schema.py lines 609-619): a `Field` renders as a
quoted identifier, a nested marker renders recursively on the shared state,
anything else is registered as a parameter (passed through the expression
field's `to_database`, the identity for enum-free fields). -/
def parseOperand (st : MarkerState) (t : DBType) :
    Operand → Except String (String × MarkerState)
  | .fld f => .ok (t.quote f.name, st)
  | .sub e => exprToSql e st t
  | .val v =>
    let (k, st') := st.mark (.val v)
    .ok (":" ++ k, st')
  | .lst os =>
    let (k, st') := st.mark (.lst os)
    .ok (":" ++ k, st')
termination_by o => 2 * sizeOf o

/-- `SQLExpression.to_sql` (schema.py lines 696-712). -/
def exprToSql (e : SQLExpression) (st : MarkerState) (t : DBType) :
    Except String (String × MarkerState) :=
  match e with
  | .mk none _ => .error "assert self.field"
  | .mk (some f) vals => exprFold st (t.quote f.name) t vals
termination_by 2 * sizeOf e

/-- One iteration of the `SQLExpression.to_sql` loop (schema.py lines
700-711): `IN` renders a sub-select or a joined element list, `LIKE` marks
its operand directly, any other operator either parenthesises and nests a
sub-expression or appends a parsed plain operand. -/
def exprStep (st : MarkerState) (sql : String) (t : DBType) :
    Opr → Operand → Except String (String × MarkerState)
  | .IN, .sub e => do
    let (s, st') ← exprToSql e st t
    pure (sql ++ " " ++ Opr.value .IN ++ " (" ++ s ++ ")", st')
  | .IN, .lst os => do
    let (ss, st') ← parseList st t os
    pure (sql ++ " " ++ Opr.value .IN ++ " (" ++ pyJoin ", " ss ++ ")", st')
  | .IN, .val _ => Except.error "TypeError: argument of IN is not iterable"
  | .IN, .fld _ => Except.error "TypeError: argument of IN is not iterable"
  | .LK, o =>
    let (k, st') := st.mark o
    pure (sql ++ " " ++ Opr.value .LK ++ " :" ++ k, st')
  | op, .sub e => do
    let (s, st') ← exprToSql e st t
    pure ("(" ++ sql ++ ") " ++ op.value ++ " (" ++ s ++ ")", st')
  | op, o => do
    let (s, st') ← parseOperand st t o
    pure (sql ++ " " ++ op.value ++ " " ++ s, st')
termination_by _op o => 2 * sizeOf o + 1

/-- The loop of `SQLExpression.to_sql`: fold the `(operator, operand)`
pairs over the accumulated SQL text and marker state. -/
def exprFold (st : MarkerState) (sql : String) (t : DBType) :
    List (Opr × Operand) → Except String (String × MarkerState)
  | [] => .ok (sql, st)
  | (op, o) :: rest => do
    let (sql', st') ← exprStep st sql t op o
    exprFold st' sql' t rest
termination_by l => 2 * sizeOf l

/-- `', '.join(self._parse(v) for v in value)` of the `IN` branch. -/
def parseList (st : MarkerState) (t : DBType) :
    List Operand → Except String (List String × MarkerState)
  | [] => .ok ([], st)
  | o :: os => do
    let (s, st') ← parseOperand st t o
    let (ss, st'') ← parseList st' t os
    pure (s :: ss, st'')
termination_by l => 2 * sizeOf l

end

/-- `Insert` (schema.py lines 937-944): rows are Python dicts, modelled as
association lists with the keys of the first row driving the column list. -/
structure Insert where
  schema : Option Schema := none
  insert_data : List (List (String × Val)) := []
  update_fields : List String := []
  conflict_targets : List String := []

/-- Python `row[k]` on a dict literal (last binding wins). -/
def rowGet (row : List (String × Val)) (k : String) : Option Val :=
  ((row.filter (fun p => p.1 == k)).getLast?).map (fun p => p.2)

/-- Mark the values of one insert row in key order (schema.py lines
954-957); a missing schema field or row key is a `KeyError`. -/
def markRow (s : Schema) (st : MarkerState) (keys : List String)
    (row : List (String × Val)) : Except String (List String × MarkerState) :=
  match keys with
  | [] => .ok ([], st)
  | k :: ks =>
    match lookupLast s.fields k, rowGet row k with
    | some fk, some v =>
      let (nm, st') := st.mark (.val (fk.to_database v))
      match markRow s st' ks row with
      | .ok (ns, st'') => .ok (nm :: ns, st'')
      | .error e => .error e
    | _, _ => .error "KeyError"

/-- Mark every insert row (schema.py lines 953-958). -/
def markRows (s : Schema) (st : MarkerState) (keys : List String) :
    List (List (String × Val)) → Except String (List (List String) × MarkerState)
  | [] => .ok ([], st)
  | row :: rows => do
    let (ns, st') ← markRow s st keys row
    let (nss, st'') ← markRows s st' keys rows
    pure (ns :: nss, st'')

/-- The INSERT statement up to (excluding) the upsert clause (schema.py
lines 950-963), together with the marker state. -/
def insertBase (s : Schema) (rows : List (List (String × Val))) (t : DBType) :
    Except String (String × MarkerState) :=
  match rows with
  | [] => .error "assert self.insert_data"
  | r0 :: _ => do
    let keys := r0.map (fun p => p.1)
    let (varss, st) ← markRows s {} keys rows
    let sql := "INSERT INTO " ++ t.quote s.name ++ " (" ++
      pyJoin ", " (keys.map (fun k => t.quote k)) ++ ") VALUES" ++
      pyJoin ", " (varss.map (fun vs => "(" ++ pyJoin ", " (vs.map (fun v => ":" ++ v)) ++ ")"))
    pure (sql, st)

/-- The upsert clause (schema.py lines 964-995): MySQL forbids conflict
targets, PostgreSQL requires them, SQLite accepts an optional one. -/
def upsertClause (update_fields conflict_targets : List String) (t : DBType) :
    Except String String :=
  match t with
  | .MYSQL =>
    if conflict_targets ≠ [] then .error "For MySQL - conflict_target not support"
    else .ok (" ON DUPLICATE KEY UPDATE " ++
      pyJoin ", " (update_fields.map (fun k => k ++ " = VALUES(" ++ k ++ ")")))
  | .SQLITE =>
    .ok (" ON CONFLICT" ++
      (if conflict_targets ≠ [] then "(" ++ pyJoin "," conflict_targets ++ ")" else "") ++
      " DO UPDATE SET " ++
      pyJoin ", " (update_fields.map (fun k => k ++ " = excluded." ++ k)))
  | .POSTGRES =>
    if conflict_targets = [] then .error "For PostgresSQL - conflict_target must be provided"
    else .ok (" ON CONFLICT (" ++ pyJoin "," conflict_targets ++ ") DO UPDATE SET " ++
      pyJoin ", " (update_fields.map (fun k => k ++ " = EXCLUDED." ++ k)))

/-- `Insert.to_sql` (schema.py lines 946-998). -/
def Insert.to_sql (i : Insert) (t : DBType) : Except String String :=
  match i.insert_data with
  | [] => .error "assert self.insert_data"
  | r0 :: rest =>
    match i.schema with
    | none => .error "assert self.schema"
    | some s => do
      let (base, _st) ← insertBase s (r0 :: rest) t
      let upsert ←
        if i.update_fields ≠ [] then upsertClause i.update_fields i.conflict_targets t
        else pure ""
      let ret ←
        if t = .POSTGRES then do
          let pf ← s.primary_field
          pure (" RETURNING " ++ pf.name)
        else pure ""
      pure (base ++ upsert ++ ret ++ ";")

/-- An `ORDER BY` item (`Crud._order_by`): a field or an expression. -/
inductive OrderItem where
  | fld (f : Field)
  | expr (e : SQLExpression)

/-- `Crud` (schema.py lines 747-769): the select/update/delete builder.
The marker state (inherited from `SQLMarker`) starts fresh for each
builder, per the dataclass default factories. -/
structure Crud where
  schema : Option Schema := none
  _where : Option SQLExpression := none
  _raw_where : String := ""
  _limit : Int := 0
  _offset : Int := 0
  _order_by : List OrderItem := []
  _order_by_asc : List Bool := []
  _for_update : Bool := false
  _for_share : Bool := false
  _use_indexes : List (List String × String) := []
  _ignore_indexes : List (List String × String) := []
  _force_indexes : List (List String × String) := []
  _selected_fields : List Field := []

/-- The index-hint clauses (schema.py lines 851-868). -/
def hintClauses (c : Crud) (t : DBType) : Except String String :=
  match t with
  | .MYSQL =>
    .ok (String.join (c._use_indexes.map (fun p =>
        " USE INDEX " ++ (if p.2 ≠ "" then t.quote p.2 else "") ++ " (" ++
          pyJoin "," (p.1.map (fun n => t.quote n)) ++ ") ")) ++
      String.join (c._ignore_indexes.map (fun p =>
        " IGNORE INDEX " ++ (if p.2 ≠ "" then t.quote p.2 else "") ++ " (" ++
          pyJoin "," (p.1.map (fun n => t.quote n)) ++ ") ")) ++
      String.join (c._force_indexes.map (fun p =>
        " FORCE INDEX " ++ (if p.2 ≠ "" then p.2 else "") ++ " (" ++
          pyJoin "," (p.1.map (fun n => t.quote n)) ++ ") ")))
  | .SQLITE => do
    let ui := if c._use_indexes ≠ [] then c._use_indexes else c._force_indexes
    let s1 ← match ui with
      | [] => pure ""
      | (names, _) :: _ =>
        match names with
        | [] => Except.error "IndexError"
        | n :: _ => pure (" INDEXED BY " ++ t.quote n ++ " ")
    let s2 := if c._ignore_indexes ≠ [] then " NOT INDEXED " else ""
    pure (s1 ++ s2)
  | .POSTGRES =>
    if c._use_indexes ≠ [] ∨ c._force_indexes ≠ [] ∨ c._ignore_indexes ≠ [] then
      .error "For PostgreSQL - index hints not supported"
    else .ok ""

/-- Render the `ORDER BY` items (schema.py lines 874-880), looking up the
ascending flag positionally (`IndexError` when `_order_by_asc` is shorter). -/
def renderOrderItems (t : DBType) (ascList : List Bool) (st : MarkerState) (idx : Nat) :
    List OrderItem → Except String (List String × MarkerState)
  | [] => .ok ([], st)
  | item :: rest => do
    let (s, st') ← match item with
      | .fld f => pure (t.quote f.name, st)
      | .expr e => exprToSql e st t
    match ascList.get? idx with
    | none => Except.error "IndexError"
    | some b => do
      let (ss, st'') ← renderOrderItems t ascList st' (idx + 1) rest
      pure ((s ++ " " ++ (if b then "ASC" else "DESC")) :: ss, st'')

/-- The SELECT statement up to (excluding) the row-lock clause and the final
semicolon (schema.py lines 843-887). -/
def Crud.selectCore (c : Crud) (count : Bool) (t : DBType)
    (fields ignore_fields : List Field) : Except String (String × MarkerState) :=
  match c.schema with
  | none => .error "assert self.schema"
  | some s => do
    let sel := c._selected_fields ++ fields
    let ignoreNames := ignore_fields.map (fun f => f.name)
    let head :=
      if count = false then
        "SELECT " ++
          pyJoin ", " (((if sel = [] then s.fields else sel).filter
            (fun f => ! ignoreNames.contains f.name)).map (fun f => t.quote f.name)) ++
          " FROM " ++ t.quote s.name
      else "SELECT COUNT(*) FROM " ++ t.quote s.name
    let hints ← hintClauses c t
    let (whereSec, st) ←
      match c._where with
      | some e => do
        let (w, st) ← exprToSql e {} t
        pure (" WHERE " ++ w, st)
      | none =>
        if c._raw_where ≠ "" then pure ((" WHERE " ++ c._raw_where : String), ({} : MarkerState))
        else pure ("", ({} : MarkerState))
    if count then
      pure (head ++ hints ++ whereSec, st)
    else do
      let (orderSec, st) ←
        match c._order_by with
        | [] => pure (("" : String), st)
        | ob@(_ :: _) => do
          let (ss, st') ← renderOrderItems t c._order_by_asc st 0 ob
          pure (" ORDER BY " ++ pyJoin ", " ss, st')
      let (limitSec, st) :=
        if c._limit ≠ 0 then
          let (k, st') := st.mark (.val (.int c._limit))
          (" LIMIT :" ++ k, st')
        else ("", st)
      let (offsetSec, st) ←
        if c._offset ≠ 0 then
          if c._limit = 0 then Except.error "Offset need limit"
          else
            let (k, st') := st.mark (.val (.int c._offset))
            pure ((" OFFSET :" ++ k : String), st')
        else pure ("", st)
      pure (head ++ hints ++ whereSec ++ orderSec ++ limitSec ++ offsetSec, st)

/-- The row-lock clause (schema.py lines 888-903): `FOR UPDATE` is an error
on SQLite; `for_share` is silently skipped on SQLite and spelled
`LOCK IN SHARE MODE` on MySQL and `FOR SHARE` on PostgreSQL. -/
def Crud.lockClause (c : Crud) (count : Bool) (t : DBType) : Except String String :=
  if count then .ok ""
  else if c._for_update then
    if t = .SQLITE then .error "For SQLite - do not support FOR UPDATE lock"
    else .ok " FOR UPDATE"
  else if c._for_share ∧ t ≠ .SQLITE then
    if t = .MYSQL then .ok " LOCK IN SHARE MODE"
    else .ok " FOR SHARE"
  else .ok ""

/-- `Crud.to_select_sql` (schema.py lines 836-905). -/
def Crud.to_select_sql (c : Crud) (count : Bool) (t : DBType)
    (fields ignore_fields : List Field) : Except String String := do
  let (core, _st) ← c.selectCore count t fields ignore_fields
  let lock ← c.lockClause count t
  pure (core ++ lock ++ ";")

/-! The legacy differ of model.py (`Schema.__sub__`, model.py lines
346-381), which classifies a same-name different-type field by first
putting it in both the added and dropped dictionaries and then
reclassifying the intersection into `change_type_fields`. -/

/-- The type normalization of the model.py `Field.__hash__` (lines 69-83):
a type starting with `int` collapses to `int`, then `serial` is replaced
by `int`. -/
def mFieldNorm (ty : String) : String :=
  let t := if charsStartWith (pyLower ty).data "int".data then "int" else pyLower ty
  let t := if pyIn "serial" t then pyReplace t "serial" "int" else t
  pyLower t

/-- The model.py diffing key of a field: Python hash equality over
`(name, normalized type)` is modelled as equality of the pair itself. -/
def mFieldKey (f : Field) : String × String := (f.name, mFieldNorm f.type)

/-- Python dict `{f.name: f for f in l}` as a list of fields: key order is
first insertion, value is the last field with that name. -/
def dictByName (l : List Field) : List Field :=
  ((l.map (fun f => f.name)).eraseDups).filterMap (lookupLast l)

/-- The model.py `Schema.__sub__` field delta (lines 350-371): `_add_fields`
and `_drop_fields` are the fields present only on one side or present on
both with different keys; names in both dictionaries are reclassified into
`change_type_fields` carrying the new (added) definition. -/
def mFieldDelta (aFields bFields : List Field) : List Field × List Field × List Field :=
  let addD := dictByName (aFields.filter (fun f =>
    match lookupLast bFields f.name with
    | none => true
    | some g => mFieldKey f ≠ mFieldKey g))
  let dropD := dictByName (bFields.filter (fun f =>
    match lookupLast aFields f.name with
    | none => true
    | some g => mFieldKey f ≠ mFieldKey g))
  let changeNames := (addD.map (fun f => f.name)).filter
    (fun n => (dropD.map (fun f => f.name)).contains n)
  (addD.filter (fun f => ! changeNames.contains f.name),
   dropD.filter (fun f => ! changeNames.contains f.name),
   addD.filter (fun f => changeNames.contains f.name))

/-- Python set of indexes under the model.py `Index.__hash__/__eq__` (key
`(unique, field names)`): first representative per key. -/
def dedupIndexByKey (l : List Index) : List Index :=
  l.foldl (fun acc i =>
    if acc.any (fun j => indexKey j == indexKey i) then acc else acc ++ [i]) []

/-- The model.py `Schema.__sub__` (lines 346-381). -/
def Schema.msub (a b : Schema) : Migration :=
  let (addF, dropF, changeF) := mFieldDelta a.fields b.fields
  { schema := some a
    old_schema := some b
    add_indexes := (dedupIndexByKey a.indexes).filter (fun i =>
      ! (b.indexes.map indexKey).contains (indexKey i))
    drop_indexes := (dedupIndexByKey b.indexes).filter (fun i =>
      ! (a.indexes.map indexKey).contains (indexKey i))
    add_fields := addF
    drop_fields := dropF
    change_type_fields := changeF }

/-! Helper notions for the marker-uniqueness proofs. -/

/-- Decimal decode of a digit list (used to invert `natToDigits`). -/
def ofDigits (l : List Nat) : Nat := l.foldl (fun a d => 10 * a + d) 0

/-- The placeholder names a marker state hands out next are fresh: a marker
state is well formed when its binding keys are exactly `var0 ... var(n-1)`. -/
def WfState (st : MarkerState) : Prop :=
  st.vars.map Prod.fst = (List.range st.varIndex).map varName

/-- Relation between marker states before and after rendering one node: the
counter only grows, and the bindings are extended (never overwritten) with
keys formed from the consecutive fresh counter values. -/
def MarksFreshly (st st' : MarkerState) : Prop :=
  st.varIndex ≤ st'.varIndex ∧
  ∃ nw, st'.vars = st.vars ++ nw ∧
    nw.map Prod.fst = (List.range' st.varIndex (st'.varIndex - st.varIndex)).map varName

/-! Concrete inputs used by the counterexamples and witnesses. -/

/-- A schema with a duplicated field name `x` (declared `int` and `bigint`)
and a primary field: legal for the `Schema` dataclass, but its self-diff is
not empty. -/
def SdupX : Schema :=
  { name := "t"
    fields := [{ name := "x", type := "int", primary := true },
               { name := "x", type := "bigint" }] }

/-- Desired schema for the C2 counterexample: one field `x:int`. -/
def A2cex : Schema := { name := "a", fields := [{ name := "x", type := "int" }] }

/-- Current schema for the C2 counterexample: `x` declared twice, as
`bigint` and as `int` (the dict keeps the `int` one). -/
def B2cex : Schema :=
  { name := "a"
    fields := [{ name := "x", type := "bigint" }, { name := "x", type := "int" }] }

/-- Desired schema for the C2 witness: `id:int` (primary) plus `x:int`. -/
def A2w : Schema :=
  { name := "u"
    fields := [{ name := "id", type := "int", primary := true },
               { name := "x", type := "int" }] }

/-- Current schema for the C2 witness: same but `x:bigint`. -/
def B2w : Schema :=
  { name := "u"
    fields := [{ name := "id", type := "int", primary := true },
               { name := "x", type := "bigint" }] }

/-- The dropped field of the C3 counterexample. -/
def gField : Field := { name := "group_id", type := "int" }

/-- An index solely on the dropped field. -/
def gIndex : Index := { fields := [gField], unique := false, name := "gidx" }

/-- An update-in-place migration dropping `group_id` together with an index
solely on `group_id`. -/
def m3cex : Migration :=
  { schema := some { name := "t" }
    old_schema := some { name := "t", fields := [gField], indexes := [gIndex] }
    drop_fields := [gField]
    drop_indexes := [gIndex] }

/-- The sample condition `(a == 1) & (b == 2)` of the parameter-uniqueness
property, built the way the overloaded operators build it. -/
def exprC7 : SQLExpression :=
  (Field.eqE { name := "a" } (.val (.int 1))).andE
    (.sub (Field.eqE { name := "b" } (.val (.int 2))))

/-- Schema used by the upsert and select witnesses: `user_profile` with
primary `id`, `level` and `user_id`. -/
def S6 : Schema :=
  { name := "user_profile"
    fields := [{ name := "id", type := "int", primary := true },
               { name := "level", type := "int" },
               { name := "user_id", type := "int" }] }

/-- The single insert row of the upsert witness. -/
def row6 : List (String × Val) := [("level", Val.int 5)]

/-- A concrete query over `S6` with all other clauses left at their
defaults, used to exercise the row-lock handling of `to_select_sql`. -/
def crud10 : Crud := { schema := some S6 }

/-! Helper lemmas about the Python-semantics helpers and the embedding. -/

theorem mem_of_eraseDupsLoop {α : Type _} [BEq α] {a : α} :
    ∀ (as bs : List α), a ∈ List.eraseDups.loop as bs → a ∈ as ∨ a ∈ bs
  | [], _bs, h => Or.inr (by simpa [List.eraseDups.loop] using h)
  | x :: xs, bs, h => by
    rw [List.eraseDups.loop] at h
    cases hx : bs.elem x with
    | false =>
      rw [hx] at h
      rcases mem_of_eraseDupsLoop xs (x :: bs) h with h1 | h1
      · exact Or.inl (List.mem_cons_of_mem _ h1)
      · rcases List.mem_cons.mp h1 with rfl | h2
        · exact Or.inl (List.mem_cons_self _ _)
        · exact Or.inr h2
    | true =>
      rw [hx] at h
      rcases mem_of_eraseDupsLoop xs bs h with h1 | h1
      · exact Or.inl (List.mem_cons_of_mem _ h1)
      · exact Or.inr h1

theorem mem_of_mem_eraseDups {α : Type _} [BEq α] {a : α} {l : List α}
    (h : a ∈ l.eraseDups) : a ∈ l := by
  rcases mem_of_eraseDupsLoop l [] (by simpa [List.eraseDups] using h) with h1 | h1
  · exact h1
  · simp at h1

theorem digitChr_inj_lt : ∀ a < 10, ∀ b < 10, digitChr a = digitChr b → a = b := by decide

theorem natToDigitsF_lt : ∀ fuel n, n ≤ fuel → ∀ d ∈ natToDigitsF fuel n, d < 10 := by
  intro fuel
  induction fuel with
  | zero =>
    intro n hn d hd
    have : n = 0 := by omega
    subst this
    simp [natToDigitsF] at hd
    omega
  | succ fuel ih =>
    intro n hn d hd
    by_cases h10 : n < 10
    · simp [natToDigitsF, h10] at hd
      omega
    · simp [natToDigitsF, h10] at hd
      rcases hd with hd | hd
      · have hdiv : n / 10 ≤ fuel := by
          have := Nat.div_lt_self (show 0 < n by omega) (show 1 < 10 by omega)
          omega
        exact ih (n / 10) hdiv d hd
      · subst hd
        exact Nat.mod_lt _ (by omega)

theorem foldl_natToDigitsF : ∀ fuel n a, n ≤ fuel →
    List.foldl (fun x d => 10 * x + d) a (natToDigitsF fuel n) =
      a * 10 ^ (natToDigitsF fuel n).length + n := by
  intro fuel
  induction fuel with
  | zero =>
    intro n a hn
    have : n = 0 := by omega
    subst this
    simp [natToDigitsF]
    ring
  | succ fuel ih =>
    intro n a hn
    by_cases h10 : n < 10
    · simp [natToDigitsF, h10]
      ring
    · have hdiv : n / 10 ≤ fuel := by
        have := Nat.div_lt_self (show 0 < n by omega) (show 1 < 10 by omega)
        omega
      simp only [natToDigitsF, if_neg h10, List.foldl_append, List.foldl_cons,
        List.foldl_nil, List.length_append, List.length_cons, List.length_nil]
      rw [ih (n / 10) a hdiv]
      calc 10 * (a * 10 ^ (natToDigitsF fuel (n / 10)).length + n / 10) + n % 10
          = a * 10 ^ (natToDigitsF fuel (n / 10)).length * 10 +
              (10 * (n / 10) + n % 10) := by ring
        _ = a * 10 ^ ((natToDigitsF fuel (n / 10)).length + (0 + 1)) + n := by
              rw [Nat.div_add_mod, Nat.zero_add, Nat.pow_succ]
              ring

theorem natToDigits_decode (n : Nat) :
    List.foldl (fun x d => 10 * x + d) 0 (natToDigits n) = n := by
  have := foldl_natToDigitsF n n 0 (Nat.le_refl n)
  simpa [natToDigits] using this

theorem map_digitChr_inj : ∀ (l1 l2 : List Nat), (∀ d ∈ l1, d < 10) →
    (∀ d ∈ l2, d < 10) → l1.map digitChr = l2.map digitChr → l1 = l2
  | [], [], _, _, _ => rfl
  | [], _ :: _, _, _, h => by simp at h
  | _ :: _, [], _, _, h => by simp at h
  | a :: l1, b :: l2, h1, h2, h => by
    simp only [List.map_cons, List.cons.injEq] at h
    have hab := digitChr_inj_lt a (h1 a (by simp)) b (h2 b (by simp)) h.1
    subst hab
    rw [map_digitChr_inj l1 l2 (fun d hd => h1 d (by simp [hd]))
      (fun d hd => h2 d (by simp [hd])) h.2]

theorem pyStr_inj {m n : Nat} (h : pyStr m = pyStr n) : m = n := by
  unfold pyStr at h
  have hdata := String.ext_iff.mp h
  have hm := natToDigitsF_lt m m (Nat.le_refl m)
  have hn := natToDigitsF_lt n n (Nat.le_refl n)
  have hds : natToDigits m = natToDigits n :=
    map_digitChr_inj _ _ hm hn hdata
  have := congrArg (List.foldl (fun x d => 10 * x + d) 0) hds
  rwa [natToDigits_decode, natToDigits_decode] at this

theorem varName_inj {m n : Nat} (h : varName m = varName n) : m = n := by
  unfold varName at h
  have hdata := String.ext_iff.mp h
  simp only [String.data_append] at hdata
  exact pyStr_inj (String.ext (List.append_cancel_left hdata))

theorem lookupLast_name {l : List Field} {n : String} {g : Field}
    (h : lookupLast l n = some g) : g.name = n := by
  unfold lookupLast at h
  have hm := List.mem_of_getLast?_eq_some h
  have := (List.mem_filter.mp hm).2
  simpa using this

theorem lookupLast_self {l : List Field} (hnd : (l.map Field.name).Nodup)
    {f : Field} (hf : f ∈ l) : lookupLast l f.name = some f := by
  induction l with
  | nil => cases hf
  | cons g gs ih =>
    simp only [List.map_cons, List.nodup_cons] at hnd
    obtain ⟨hg, hnd'⟩ := hnd
    rcases List.mem_cons.mp hf with rfl | hf'
    · have hrest : gs.filter (fun x => x.name == f.name) = [] := by
        apply List.filter_eq_nil_iff.mpr
        intro x hx hbeq
        exact hg (by
          have : x.name = f.name := by simpa using hbeq
          rw [← this]
          exact List.mem_map_of_mem Field.name hx)
      unfold lookupLast
      rw [List.filter_cons]
      simp [hrest]
    · have hne : (g.name == f.name) = false := by
        apply beq_eq_false_iff_ne.mpr
        intro hcontra
        exact hg (by rw [hcontra]; exact List.mem_map_of_mem Field.name hf')
      unfold lookupLast
      rw [List.filter_cons]
      rw [if_neg (by simp [hne])]
      exact ih hnd' hf'

theorem updateSqls_all_empty (m : Migration) (s : Schema) (t : DBType)
    (ha : m.add_fields = []) (hd : m.drop_fields = []) (hc : m.change_type_fields = [])
    (hai : m.add_indexes = []) (hdi : m.drop_indexes = []) :
    m.updateSqls s s t = .ok [] := by
  unfold Migration.updateSqls
  rw [ha, hd, hc, hai, hdi]
  simp
  rfl

theorem to_sql_both {m : Migration} {s old : Schema} (hs : m.schema = some s)
    (ho : m.old_schema = some old) (t : DBType) :
    m.to_sql t = (m.updateSqls s old t).bind
      (fun l => .ok (pyJoin ";\n" (appendLastSemicolon l))) := by
  unfold Migration.to_sql
  rw [hs, ho]
  rfl

/-- C9: building an IN expression via `Field.contains` with an empty values
collection raises `ValueError("Empty values")` before any expression is
constructed; with a non-empty collection it returns the IN expression and
raises nothing. -/
theorem contains_empty_raises (f : Field) (vs : List Operand) :
    (vs = [] → Field.contains f vs = .error "Empty values") ∧
    (vs ≠ [] → Field.contains f vs = .ok (.mk (some f) [(.IN, .lst vs)])) := by
  constructor
  · rintro rfl
    rfl
  · intro h
    match vs with
    | [] => exact absurd rfl h
    | v :: vs' => rfl

/-- C9 witness: a concrete field with an empty and a one-element collection. -/
theorem contains_empty_raises_witness :
    Field.contains { name := "id" } [] = .error "Empty values" ∧
    Field.contains { name := "id" } [.val (.int 1)] =
      .ok (.mk (some { name := "id" }) [(.IN, .lst [.val (.int 1)])]) :=
  ⟨(contains_empty_raises { name := "id" } []).1 rfl,
   (contains_empty_raises { name := "id" } [.val (.int 1)]).2 (by simp)⟩

/-- C1 counterexample: `SdupX` has a primary field, yet its self-diff has a
non-empty `change_type_fields`, compiles to non-empty MySQL SQL, and
`SdupX == SdupX` is false under the differ-based equality — a schema whose
duplicate field name carries two normalized types defeats the claim. -/
theorem self_diff_empty_cex :
    (SdupX.fields.any (fun f => f.primary)) = true ∧
    (SdupX.sub (some SdupX)).change_type_fields ≠ [] ∧
    (SdupX.sub (some SdupX)).to_sql .MYSQL = .ok "ALTER TABLE `t` MODIFY `x` int;" ∧
    Schema.eq SdupX SdupX = .ok false := by
  refine ⟨rfl, by decide, rfl, rfl⟩

/-- C1 (amended): for every schema with pairwise-distinct field names that
has a primary field, the self-diff `S − S` has empty `add_fields`,
`drop_fields`, `change_type_fields`, `add_indexes` and `drop_indexes`, its
compiled SQL is the empty string for every dialect, and `S == S` holds
under the differ-based schema equality. -/
theorem self_diff_empty (S : Schema) (hnd : (S.fields.map Field.name).Nodup)
    (_hpk : ∃ f ∈ S.fields, f.primary = true) :
    (S.sub (some S)).add_fields = [] ∧
    (S.sub (some S)).drop_fields = [] ∧
    (S.sub (some S)).change_type_fields = [] ∧
    (S.sub (some S)).add_indexes = [] ∧
    (S.sub (some S)).drop_indexes = [] ∧
    (∀ t, (S.sub (some S)).to_sql t = .ok "") ∧
    Schema.eq S S = .ok true := by
  have hlook : ∀ f ∈ S.fields, lookupLast S.fields f.name = some f :=
    fun f hf => lookupLast_self hnd hf
  have ha : (S.sub (some S)).add_fields = [] := by
    show S.fields.filter _ = []
    apply List.filter_eq_nil_iff.mpr
    intro f hf
    rw [hlook f hf]
    simp
  have hd : (S.sub (some S)).drop_fields = [] := by
    show S.fields.filter _ = []
    apply List.filter_eq_nil_iff.mpr
    intro f hf
    rw [hlook f hf]
    simp
  have hc : (S.sub (some S)).change_type_fields = [] := by
    show S.fields.filter _ = []
    apply List.filter_eq_nil_iff.mpr
    intro f hf
    rw [hlook f hf]
    simp
  have hidx : ∀ l : List (Bool × List String),
      l.eraseDups.filter (fun k => ! l.eraseDups.contains k) = [] := by
    intro l
    apply List.filter_eq_nil_iff.mpr
    intro k hk
    simp [List.contains, hk]
  have hai : (S.sub (some S)).add_indexes = [] := by
    show (((S.indexes.map indexKey).eraseDups.filter _).filterMap _) = []
    rw [hidx (S.indexes.map indexKey)]
    rfl
  have hdi : (S.sub (some S)).drop_indexes = [] := by
    show (((S.indexes.map indexKey).eraseDups.filter _).filterMap _) = []
    rw [hidx (S.indexes.map indexKey)]
    rfl
  have hsql : ∀ t, (S.sub (some S)).to_sql t = .ok "" := by
    intro t
    rw [@to_sql_both (S.sub (some S)) S S rfl rfl t,
      updateSqls_all_empty _ _ _ ha hd hc hai hdi]
    rfl
  refine ⟨ha, hd, hc, hai, hdi, hsql, ?_⟩
  unfold Schema.eq
  rw [hsql .MYSQL]
  rfl

/-- C1 witness: the schema `A2w` (distinct field names, primary `id`). -/
theorem self_diff_empty_witness :
    (A2w.sub (some A2w)).change_type_fields = [] ∧
    (A2w.sub (some A2w)).to_sql .SQLITE = .ok "" ∧
    Schema.eq A2w A2w = .ok true := by
  have h := self_diff_empty A2w (by decide) (by decide)
  exact ⟨h.2.2.1, h.2.2.2.2.2.1 .SQLITE, h.2.2.2.2.2.2⟩

/-- C2 counterexample: `A2cex` has a field `x:int` and `B2cex` has a field
`x:bigint`, but `B2cex` declares `x` a second time as `int` and the name
dictionary keeps that one, so `A2cex − B2cex` reports zero
`change_type_fields` entries for `x` — not exactly one.  The legacy
model.py differ also fails here: no change entry, and `x` lands in
`drop_fields`. -/
theorem change_type_entry_cex :
    (A2cex.fields.any (fun f => f.name == "x" && f.type == "int")) = true ∧
    (B2cex.fields.any (fun f => f.name == "x" && f.type == "bigint")) = true ∧
    (A2cex.sub (some B2cex)).change_type_fields = [] ∧
    (A2cex.msub B2cex).change_type_fields = [] ∧
    (A2cex.msub B2cex).drop_fields = [{ name := "x", type := "bigint" }] :=
  ⟨rfl, rfl, rfl, rfl, rfl⟩

/-- C2 (amended): for every pair of schemas A, B such that exactly one
field of A is named x, with type int, and exactly one field of B is named
x, with type bigint, the diff A − B has exactly one `change_type_fields`
entry named x, and that entry is A's own field definition (the new type to
migrate to); x appears in neither `add_fields` nor `drop_fields`. -/
theorem change_type_entry (A B : Schema) (x : String) (fa fb : Field)
    (hA : A.fields.filter (fun f => f.name == x) = [fa])
    (hB : B.fields.filter (fun f => f.name == x) = [fb])
    (hta : fa.type = "int") (htb : fb.type = "bigint") :
    (A.sub (some B)).change_type_fields.filter (fun f => f.name == x) = [fa] ∧
    fa ∈ A.fields ∧
    x ∉ (A.sub (some B)).add_fields.map Field.name ∧
    x ∉ (A.sub (some B)).drop_fields.map Field.name := by
  have hfa_mem_filter : fa ∈ A.fields.filter (fun f => f.name == x) := by
    rw [hA]
    exact List.mem_singleton.mpr rfl
  have hfa_mem : fa ∈ A.fields := (List.mem_filter.mp hfa_mem_filter).1
  have hfa_name : fa.name = x := by
    have := (List.mem_filter.mp hfa_mem_filter).2
    simpa using this
  have hfb_mem_filter : fb ∈ B.fields.filter (fun f => f.name == x) := by
    rw [hB]
    exact List.mem_singleton.mpr rfl
  have hfb_name : fb.name = x := by
    have := (List.mem_filter.mp hfb_mem_filter).2
    simpa using this
  have hlookB : lookupLast B.fields x = some fb := by
    unfold lookupLast
    rw [hB]
    rfl
  have hlookA : lookupLast A.fields x = some fa := by
    unfold lookupLast
    rw [hA]
    rfl
  -- the change predicate of `Schema.__sub__`
  have hchange :
      (A.sub (some B)).change_type_fields.filter (fun f => f.name == x) = [fa] := by
    show (A.fields.filter _).filter (fun f => f.name == x) = [fa]
    rw [List.filter_filter]
    have hcomm : ∀ f : Field,
        ((f.name == x) &&
          (match lookupLast B.fields f.name with
           | some g => decide (normType f.type ≠ normType g.type)
           | none => false)) =
        ((match lookupLast B.fields f.name with
           | some g => decide (normType f.type ≠ normType g.type)
           | none => false) && (f.name == x)) := fun f => Bool.and_comm _ _
    rw [List.filter_congr (fun f _ => hcomm f), ← List.filter_filter, hA]
    have hpred : (match lookupLast B.fields fa.name with
        | some g => decide (normType fa.type ≠ normType g.type)
        | none => false) = true := by
      rw [hfa_name, hlookB]
      show decide (normType fa.type ≠ normType fb.type) = true
      rw [hta, htb]
      decide
    rw [List.filter_cons, if_pos hpred]
    rfl
  refine ⟨hchange, hfa_mem, ?_, ?_⟩
  · intro hx
    obtain ⟨f, hf_add, hf_name⟩ := List.mem_map.mp hx
    have hf := List.mem_filter.mp hf_add
    rw [hf_name, hlookB] at hf
    simp at hf
  · intro hx
    obtain ⟨f, hf_drop, hf_name⟩ := List.mem_map.mp hx
    have hf := List.mem_filter.mp hf_drop
    rw [hf_name, hlookA] at hf
    simp at hf

/-- C2 witness: the schemas `A2w` (with `x:int`) and `B2w` (with
`x:bigint`); the legacy model.py differ agrees on this input. -/
theorem change_type_entry_witness :
    (A2w.sub (some B2w)).change_type_fields.filter (fun f => f.name == "x") =
      [{ name := "x", type := "int" }] ∧
    "x" ∉ (A2w.sub (some B2w)).add_fields.map Field.name ∧
    "x" ∉ (A2w.sub (some B2w)).drop_fields.map Field.name ∧
    (A2w.msub B2w).change_type_fields = [{ name := "x", type := "int" }] ∧
    (A2w.msub B2w).add_fields = [] ∧
    (A2w.msub B2w).drop_fields = [] := by
  have h := change_type_entry A2w B2w "x" { name := "x", type := "int" }
    { name := "x", type := "bigint" } rfl rfl rfl rfl
  exact ⟨h.1, h.2.2.1, h.2.2.2, rfl, rfl, rfl⟩

/-- C3 counterexample: on SQLite, the migration `m3cex` — dropping the
field `group_id` and an index solely on `group_id` — compiles to SQL that
does contain the explicit `DROP INDEX` statement for that index; the
suppression only happens on the MySQL branch. -/
theorem drop_index_suppression_cex :
    m3cex.drop_indexes = [gIndex] ∧
    idxTouchesDropped gIndex m3cex.drop_fields = true ∧
    m3cex.to_sql .SQLITE =
      .ok "DROP INDEX `gidx`;\nALTER TABLE `t` DROP COLUMN `group_id`;" ∧
    pyIn "DROP INDEX `gidx`"
      "DROP INDEX `gidx`;\nALTER TABLE `t` DROP COLUMN `group_id`;" = true :=
  ⟨rfl, rfl, rfl, rfl⟩

theorem filterMap_dropIndexSql_mysql (tbl : String) (dropped : List Field)
    (l : List Index) :
    l.filterMap (dropIndexSql .MYSQL tbl dropped) =
      (l.filter (fun i => ! idxTouchesDropped i dropped)).filterMap
        (dropIndexSql .MYSQL tbl dropped) := by
  induction l with
  | nil => rfl
  | cons a l ih =>
    by_cases hp : idxTouchesDropped a dropped = true
    · rw [List.filter_cons, if_neg (by simp [hp])]
      rw [List.filterMap_cons]
      have : dropIndexSql .MYSQL tbl dropped a = none := by
        unfold dropIndexSql
        rw [if_pos rfl, if_pos hp]
      rw [this, ih]
    · simp only [Bool.not_eq_true] at hp
      rw [List.filter_cons, if_pos (by simp [hp])]
      rw [List.filterMap_cons, List.filterMap_cons, ih]

theorem filterMap_dropIndexSql_nonmysql (t : DBType) (ht : t ≠ DBType.MYSQL)
    (tbl : String) (dropped : List Field) (l : List Index) :
    l.filterMap (dropIndexSql t tbl dropped) =
      l.map (fun i => "DROP INDEX " ++ t.quote i.name) := by
  induction l with
  | nil => rfl
  | cons a l ih =>
    rw [List.filterMap_cons]
    have h : dropIndexSql t tbl dropped a =
        some ("DROP INDEX " ++ t.quote a.name) := by
      unfold dropIndexSql
      rw [if_neg ht]
    rw [h, ih, List.map_cons]

theorem mapExcept_lookupLast_ok (ofs : List Field) :
    ∀ l : List Field, (∀ f ∈ l, (lookupLast ofs f.name).isSome = true) →
    ∃ out, mapExcept (fun f => match lookupLast ofs f.name with
        | some g => Except.ok g
        | none => Except.error "KeyError") l = .ok out ∧
      out.map Field.name = l.map Field.name ∧
      ∀ g ∈ out, lookupLast ofs g.name = some g := by
  intro l
  induction l with
  | nil => exact fun _ => ⟨[], rfl, rfl, by simp⟩
  | cons f l ih =>
    intro h
    obtain ⟨g, hg⟩ := Option.isSome_iff_exists.mp (h f (List.mem_cons_self _ _))
    obtain ⟨out, hout, hnm, hmem⟩ :=
      ih (fun f' hf' => h f' (List.mem_cons_of_mem _ hf'))
    have hgname : g.name = f.name := lookupLast_name hg
    refine ⟨g :: out, ?_, ?_, ?_⟩
    · unfold mapExcept
      rw [hg, hout]
      rfl
    · simp [hnm, hgname]
    · intro g' hg'
      rcases List.mem_cons.mp hg' with rfl | hmem'
      · rw [hgname]
        exact hg
      · exact hmem g' hmem'

/-- C8: for every migration with both schema endpoints present (and, as for
every differ-produced migration, each changed field's name present among
the new schema's field names and resolvable in the old schema's name
dictionary), the inverted migration swaps the two schema endpoints, swaps
`add_fields` with `drop_fields` and `add_indexes` with `drop_indexes`, and
its `change_type_fields` are old-schema field definitions (pre-image types)
for exactly the field names of the original `change_type_fields`. -/
theorem invert_swaps (m : Migration) (s o : Schema)
    (hs : m.schema = some s) (ho : m.old_schema = some o)
    (hnames : ∀ f ∈ m.change_type_fields, ∃ g ∈ s.fields, g.name = f.name)
    (hold : ∀ f ∈ m.change_type_fields, (lookupLast o.fields f.name).isSome = true) :
    ∃ m', m.invert = .ok m' ∧
      m'.schema = some o ∧
      m'.old_schema = some s ∧
      m'.add_fields = m.drop_fields ∧
      m'.drop_fields = m.add_fields ∧
      m'.add_indexes = m.drop_indexes ∧
      m'.drop_indexes = m.add_indexes ∧
      (∀ n, n ∈ m'.change_type_fields.map Field.name ↔
        n ∈ m.change_type_fields.map Field.name) ∧
      (∀ g ∈ m'.change_type_fields, lookupLast o.fields g.name = some g) := by
  obtain ⟨sch, old, mdf, maf, mcf, mai, mdi⟩ := m
  obtain rfl : sch = some s := hs
  obtain rfl : old = some o := ho
  have hold' : ∀ f ∈ mcf, (lookupLast o.fields f.name).isSome = true := hold
  have hnames' : ∀ f ∈ mcf, ∃ g ∈ s.fields, g.name = f.name := hnames
  have hfiltered : ∀ f ∈ s.fields.filter
      (fun f => (mcf.map (fun f => f.name)).contains f.name),
      (lookupLast o.fields f.name).isSome = true := by
    intro f hf
    obtain ⟨_, hcond⟩ := List.mem_filter.mp hf
    have : f.name ∈ mcf.map (fun f => f.name) :=
      List.elem_iff.mp hcond
    obtain ⟨cf, hcf_mem, hcf_name⟩ := List.mem_map.mp this
    have := hold' cf hcf_mem
    rwa [hcf_name] at this
  obtain ⟨out, hout, hnm, hmem⟩ := mapExcept_lookupLast_ok o.fields _ hfiltered
  refine ⟨⟨some o, some s, maf, mdf, out, mdi, mai⟩, ?_, rfl, rfl, rfl, rfl, rfl, rfl,
    ?_, hmem⟩
  · unfold Migration.invert
    dsimp only
    rw [hout]
    rfl
  intro n
  show n ∈ List.map Field.name out ↔ n ∈ mcf.map Field.name
  rw [hnm]
  constructor
  · intro hn
    obtain ⟨f, hf_mem, hf_name⟩ := List.mem_map.mp hn
    obtain ⟨_, hcond⟩ := List.mem_filter.mp hf_mem
    have := List.elem_iff.mp hcond
    rwa [hf_name] at this
  · intro hn
    obtain ⟨cf, hcf_mem, hcf_name⟩ := List.mem_map.mp hn
    obtain ⟨g, hg_mem, hg_name⟩ := hnames' cf hcf_mem
    refine List.mem_map.mpr ⟨g, List.mem_filter.mpr ⟨hg_mem, ?_⟩, by rw [hg_name, hcf_name]⟩
    apply List.elem_iff.mpr
    rw [hg_name, hcf_name]
    exact hn

/-- C8 witness: the migration `A2w − B2w`, whose single change field `x`
resolves to `x:bigint` in the old schema `B2w`. -/
theorem invert_swaps_witness :
    ∃ m', (A2w.sub (some B2w)).invert = .ok m' ∧
      m'.schema = some B2w ∧
      m'.old_schema = some A2w ∧
      m'.add_fields = (A2w.sub (some B2w)).drop_fields ∧
      m'.drop_fields = (A2w.sub (some B2w)).add_fields ∧
      m'.add_indexes = (A2w.sub (some B2w)).drop_indexes ∧
      m'.drop_indexes = (A2w.sub (some B2w)).add_indexes ∧
      (∀ n, n ∈ m'.change_type_fields.map Field.name ↔
        n ∈ (A2w.sub (some B2w)).change_type_fields.map Field.name) ∧
      (∀ g ∈ m'.change_type_fields, lookupLast B2w.fields g.name = some g) :=
  invert_swaps (A2w.sub (some B2w)) A2w B2w rfl rfl (by decide) (by decide)

theorem updateSqls_ok_decomp (m : Migration) (s o : Schema) (t : DBType)
    (l : List String) (h : m.updateSqls s o t = .ok l) :
    ∃ cs, mapExcept (typeChangeSql t s.name) m.change_type_fields = .ok cs ∧
      l = (if o.name ≠ s.name then
          ["ALTER TABLE " ++ t.quote o.name ++ " RENAME " ++ t.quote s.name] else []) ++
        m.drop_indexes.filterMap (dropIndexSql t s.name m.drop_fields) ++
        m.add_fields.flatMap (addFieldSqls t s.name) ++
        m.drop_fields.map (fun f =>
          "ALTER TABLE " ++ t.quote s.name ++ " DROP COLUMN " ++ t.quote f.name) ++
        cs ++
        m.add_indexes.map (fun i =>
          "CREATE " ++ (if i.unique then "UNIQUE " else "") ++ "INDEX " ++
            t.quote i.name ++ " on " ++ t.quote s.name ++ " (" ++
            pyJoin "," (i.fields.map (fun f => t.quote f.name)) ++ ")") := by
  unfold Migration.updateSqls at h
  cases hcs : mapExcept (typeChangeSql t s.name) m.change_type_fields with
  | error e =>
    rw [hcs] at h
    simp [Except.bind] at h
  | ok cs =>
    rw [hcs] at h
    refine ⟨cs, rfl, ?_⟩
    have := h
    simp only [Except.bind] at this
    exact (Except.ok.injEq _ _).mp this |>.symm

/-- C3 (amended): the implicit-drop suppression holds for the MySQL dialect
only.  First clause: the MySQL compilation of any migration is identical to
that of the same migration with every dropped index whose field names
intersect the dropped fields' names removed outright — no statement of any
kind is emitted for such an index.  Second clause: for every other dialect
(SQLite and PostgreSQL) and every update-in-place migration that compiles,
the statement list contains one plain `DROP INDEX` per dropped index,
unconditionally — no filtering whatsoever — and this whole section precedes
every `DROP COLUMN` statement. -/
theorem drop_index_suppression (m : Migration) :
    (m.to_sql .MYSQL =
      { m with drop_indexes :=
          m.drop_indexes.filter (fun i => ! idxTouchesDropped i m.drop_fields) }.to_sql
        .MYSQL) ∧
    (∀ t, t ≠ DBType.MYSQL → ∀ s o, m.schema = some s → m.old_schema = some o →
      ∀ l, m.updateSqls s o t = .ok l →
        m.to_sql t = .ok (pyJoin ";\n" (appendLastSemicolon l)) ∧
        ∃ cs, l =
          (if o.name ≠ s.name then
            ["ALTER TABLE " ++ t.quote o.name ++ " RENAME " ++ t.quote s.name]
          else []) ++
          m.drop_indexes.map (fun i => "DROP INDEX " ++ t.quote i.name) ++
          m.add_fields.flatMap (addFieldSqls t s.name) ++
          m.drop_fields.map (fun f =>
            "ALTER TABLE " ++ t.quote s.name ++ " DROP COLUMN " ++ t.quote f.name) ++
          cs ++
          m.add_indexes.map (fun i =>
            "CREATE " ++ (if i.unique then "UNIQUE " else "") ++ "INDEX " ++
              t.quote i.name ++ " on " ++ t.quote s.name ++ " (" ++
              pyJoin "," (i.fields.map (fun f => t.quote f.name)) ++ ")")) := by
  constructor
  · obtain ⟨sch, old, df, af, cf, ai, di⟩ := m
    cases sch with
    | none => cases old <;> rfl
    | some s =>
      cases old with
      | none => rfl
      | some o =>
        show Migration.to_sql _ _ = Migration.to_sql _ _
        have h1 := @to_sql_both ⟨some s, some o, df, af, cf, ai, di⟩ s o rfl rfl .MYSQL
        have h2 := @to_sql_both
          ⟨some s, some o, df, af, cf, ai,
            di.filter (fun i => ! idxTouchesDropped i df)⟩ s o rfl rfl .MYSQL
        rw [h1, h2]
        unfold Migration.updateSqls
        rw [filterMap_dropIndexSql_mysql s.name df di]
  · intro t ht s o hs ho l h
    constructor
    · rw [to_sql_both hs ho t, h]
      rfl
    · obtain ⟨cs, hcs, hdecomp⟩ := updateSqls_ok_decomp m s o t l h
      refine ⟨cs, ?_⟩
      rw [hdecomp, filterMap_dropIndexSql_nonmysql t ht s.name m.drop_fields m.drop_indexes]

theorem drop_index_suppression_witness :
    DBType.SQLITE ≠ DBType.MYSQL ∧
    m3cex.schema = some { name := "t" } ∧
    m3cex.old_schema = some { name := "t", fields := [gField], indexes := [gIndex] } ∧
    Migration.updateSqls m3cex { name := "t" }
        { name := "t", fields := [gField], indexes := [gIndex] } .SQLITE =
      .ok ["DROP INDEX `gidx`", "ALTER TABLE `t` DROP COLUMN `group_id`"] ∧
    m3cex.to_sql .SQLITE =
      .ok "DROP INDEX `gidx`;\nALTER TABLE `t` DROP COLUMN `group_id`;" ∧
    ∃ cs, (["DROP INDEX `gidx`", "ALTER TABLE `t` DROP COLUMN `group_id`"] :
        List String) =
      "DROP INDEX `gidx`" :: "ALTER TABLE `t` DROP COLUMN `group_id`" :: (cs ++ []) :=
  ⟨by decide, rfl, rfl, by rfl,
    (drop_index_suppression m3cex).2 DBType.SQLITE (by decide) { name := "t" }
      { name := "t", fields := [gField], indexes := [gIndex] } rfl rfl
      ["DROP INDEX `gidx`", "ALTER TABLE `t` DROP COLUMN `group_id`"] (by rfl)⟩

/-- C4: within an update-in-place migration and for every dialect, an added
field with a concrete default compiles to an ADD COLUMN statement carrying
a `DEFAULT <literal>` clause, immediately followed — for every dialect
other than SQLite — by an `ALTER TABLE ... ALTER COLUMN <name> DROP
DEFAULT` statement (and by nothing for SQLite); an added field with the
no-default sentinel gets a bare ADD COLUMN with neither clause. -/
theorem add_column_default (m : Migration) (s o : Schema) (t : DBType) (f : Field)
    (hs : m.schema = some s) (ho : m.old_schema = some o)
    (hf : f ∈ m.add_fields) (l : List String) (h : m.updateSqls s o t = .ok l) :
    m.to_sql t = .ok (pyJoin ";\n" (appendLastSemicolon l)) ∧
    (∀ v, f.default = some v →
      ∃ pre post, l = pre ++
        ("ALTER TABLE " ++ t.quote s.name ++ " ADD COLUMN " ++ f.to_sql t ++
          " DEFAULT " ++ V (f.to_database v)) ::
        ((if t = .SQLITE then [] else
          ["ALTER TABLE " ++ t.quote s.name ++ " ALTER COLUMN " ++ t.quote f.name ++
            " DROP DEFAULT"]) ++ post)) ∧
    (f.default = none →
      ∃ pre post, l = pre ++
        ["ALTER TABLE " ++ t.quote s.name ++ " ADD COLUMN " ++ f.to_sql t] ++ post) := by
  obtain ⟨cs, hcs, hl⟩ := updateSqls_ok_decomp m s o t l h
  obtain ⟨u, v', huv⟩ := List.append_of_mem hf
  have hflat : m.add_fields.flatMap (addFieldSqls t s.name) =
      u.flatMap (addFieldSqls t s.name) ++
        (addFieldSqls t s.name f ++ v'.flatMap (addFieldSqls t s.name)) := by
    rw [huv]
    simp
  refine ⟨?_, ?_, ?_⟩
  · rw [to_sql_both hs ho t, h]
    rfl
  · intro dv hdv
    refine ⟨(if o.name ≠ s.name then
        ["ALTER TABLE " ++ t.quote o.name ++ " RENAME " ++ t.quote s.name] else []) ++
      m.drop_indexes.filterMap (dropIndexSql t s.name m.drop_fields) ++
      u.flatMap (addFieldSqls t s.name),
      v'.flatMap (addFieldSqls t s.name) ++
      m.drop_fields.map (fun f =>
        "ALTER TABLE " ++ t.quote s.name ++ " DROP COLUMN " ++ t.quote f.name) ++
      cs ++
      m.add_indexes.map (fun i =>
        "CREATE " ++ (if i.unique then "UNIQUE " else "") ++ "INDEX " ++
          t.quote i.name ++ " on " ++ t.quote s.name ++ " (" ++
          pyJoin "," (i.fields.map (fun f => t.quote f.name)) ++ ")"), ?_⟩
    rw [hl, hflat]
    unfold addFieldSqls
    rw [hdv]
    simp
  · intro hdv
    refine ⟨(if o.name ≠ s.name then
        ["ALTER TABLE " ++ t.quote o.name ++ " RENAME " ++ t.quote s.name] else []) ++
      m.drop_indexes.filterMap (dropIndexSql t s.name m.drop_fields) ++
      u.flatMap (addFieldSqls t s.name),
      v'.flatMap (addFieldSqls t s.name) ++
      m.drop_fields.map (fun f =>
        "ALTER TABLE " ++ t.quote s.name ++ " DROP COLUMN " ++ t.quote f.name) ++
      cs ++
      m.add_indexes.map (fun i =>
        "CREATE " ++ (if i.unique then "UNIQUE " else "") ++ "INDEX " ++
          t.quote i.name ++ " on " ++ t.quote s.name ++ " (" ++
          pyJoin "," (i.fields.map (fun f => t.quote f.name)) ++ ")"), ?_⟩
    rw [hl, hflat]
    unfold addFieldSqls
    rw [hdv]
    simp

/-- C4 witness: adding `level:int` with default 1 and `extra:int` with no
declared default (sentinel) on PostgreSQL. -/
theorem add_column_default_witness :
    ({ schema := some { name := "t" }, old_schema := some { name := "t" },
       add_fields := [{ name := "level", type := "int", default := some (.int 1) },
                      { name := "extra", type := "int" }] } : Migration).to_sql
      .POSTGRES = .ok ("ALTER TABLE \"t\" ADD COLUMN \"level\" int  NOT NULL DEFAULT 1;\n" ++
        "ALTER TABLE \"t\" ALTER COLUMN \"level\" DROP DEFAULT;\n" ++
        "ALTER TABLE \"t\" ADD COLUMN \"extra\" int  NOT NULL;") ∧
    (∃ pre post,
      ["ALTER TABLE \"t\" ADD COLUMN \"level\" int  NOT NULL DEFAULT 1",
       "ALTER TABLE \"t\" ALTER COLUMN \"level\" DROP DEFAULT",
       "ALTER TABLE \"t\" ADD COLUMN \"extra\" int  NOT NULL"] = pre ++
        ("ALTER TABLE " ++ DBType.POSTGRES.quote "t" ++ " ADD COLUMN " ++
          Field.to_sql ⟨"level", "", some (.int 1), "int", false, false, true, ""⟩
            .POSTGRES ++ " DEFAULT " ++
          V (Field.to_database ⟨"level", "", some (.int 1), "int", false, false, true, ""⟩
            (.int 1))) ::
        ((if DBType.POSTGRES = DBType.SQLITE then [] else
          ["ALTER TABLE " ++ DBType.POSTGRES.quote "t" ++ " ALTER COLUMN " ++
            DBType.POSTGRES.quote "level" ++ " DROP DEFAULT"]) ++ post)) ∧
    (∃ pre post,
      ["ALTER TABLE \"t\" ADD COLUMN \"level\" int  NOT NULL DEFAULT 1",
       "ALTER TABLE \"t\" ALTER COLUMN \"level\" DROP DEFAULT",
       "ALTER TABLE \"t\" ADD COLUMN \"extra\" int  NOT NULL"] = pre ++
        ["ALTER TABLE " ++ DBType.POSTGRES.quote "t" ++ " ADD COLUMN " ++
          Field.to_sql ⟨"extra", "", none, "int", false, false, true, ""⟩ .POSTGRES] ++
        post) := by
  have h1 := add_column_default
    { schema := some { name := "t" }, old_schema := some { name := "t" },
      add_fields := [{ name := "level", type := "int", default := some (.int 1) },
                     { name := "extra", type := "int" }] }
    { name := "t" } { name := "t" } .POSTGRES
    { name := "level", type := "int", default := some (.int 1) } rfl rfl
    (by simp)
    ["ALTER TABLE \"t\" ADD COLUMN \"level\" int  NOT NULL DEFAULT 1",
     "ALTER TABLE \"t\" ALTER COLUMN \"level\" DROP DEFAULT",
     "ALTER TABLE \"t\" ADD COLUMN \"extra\" int  NOT NULL"] rfl
  have h2 := add_column_default
    { schema := some { name := "t" }, old_schema := some { name := "t" },
      add_fields := [{ name := "level", type := "int", default := some (.int 1) },
                     { name := "extra", type := "int" }] }
    { name := "t" } { name := "t" } .POSTGRES
    { name := "extra", type := "int" } rfl rfl
    (by simp)
    ["ALTER TABLE \"t\" ADD COLUMN \"level\" int  NOT NULL DEFAULT 1",
     "ALTER TABLE \"t\" ALTER COLUMN \"level\" DROP DEFAULT",
     "ALTER TABLE \"t\" ADD COLUMN \"extra\" int  NOT NULL"] rfl
  exact ⟨h1.1, h1.2.1 (.int 1) rfl, h2.2.2 rfl⟩

theorem mapExcept_typeChange_mysql (tbl : String) (l : List Field) :
    mapExcept (typeChangeSql .MYSQL tbl) l =
      .ok (l.map (fun f => "ALTER TABLE " ++ DBType.MYSQL.quote tbl ++ " MODIFY " ++
        DBType.MYSQL.quote f.name ++ " " ++ f.type)) := by
  induction l with
  | nil => rfl
  | cons f l ih =>
    unfold mapExcept
    rw [ih]
    rfl

theorem mapExcept_typeChange_postgres (tbl : String) (l : List Field) :
    mapExcept (typeChangeSql .POSTGRES tbl) l =
      .ok (l.map (fun f => "ALTER TABLE " ++ DBType.POSTGRES.quote tbl ++
        " ALTER COLUMN " ++ DBType.POSTGRES.quote f.name ++ " TYPE " ++ f.type)) := by
  induction l with
  | nil => rfl
  | cons f l ih =>
    unfold mapExcept
    rw [ih]
    rfl

/-- C5: an update-in-place migration with a non-empty `change_type_fields`
fails compilation on SQLite with the explicit unsupported-operation error
(no SQL is returned, never a silent no-op), while on MySQL and PostgreSQL
compilation succeeds and the statement list carries exactly one type-change
ALTER per changed field. -/
theorem change_type_sqlite_error (m : Migration) (s o : Schema)
    (hs : m.schema = some s) (ho : m.old_schema = some o)
    (hne : m.change_type_fields ≠ []) :
    m.to_sql .SQLITE = .error "Type changing not allowed in SQLite" ∧
    (∃ l pre post, m.updateSqls s o .MYSQL = .ok l ∧
      m.to_sql .MYSQL = .ok (pyJoin ";\n" (appendLastSemicolon l)) ∧
      l = pre ++ m.change_type_fields.map (fun f =>
        "ALTER TABLE " ++ DBType.MYSQL.quote s.name ++ " MODIFY " ++
          DBType.MYSQL.quote f.name ++ " " ++ f.type) ++ post) ∧
    (∃ l pre post, m.updateSqls s o .POSTGRES = .ok l ∧
      m.to_sql .POSTGRES = .ok (pyJoin ";\n" (appendLastSemicolon l)) ∧
      l = pre ++ m.change_type_fields.map (fun f =>
        "ALTER TABLE " ++ DBType.POSTGRES.quote s.name ++ " ALTER COLUMN " ++
          DBType.POSTGRES.quote f.name ++ " TYPE " ++ f.type) ++ post) := by
  refine ⟨?_, ?_, ?_⟩
  · rw [to_sql_both hs ho .SQLITE]
    unfold Migration.updateSqls
    rcases hcc : m.change_type_fields with _ | ⟨c, cs⟩
    · exact absurd hcc hne
    · rfl
  · have hup : m.updateSqls s o .MYSQL = .ok
        ((if o.name ≠ s.name then
          ["ALTER TABLE " ++ DBType.MYSQL.quote o.name ++ " RENAME " ++
            DBType.MYSQL.quote s.name] else []) ++
        m.drop_indexes.filterMap (dropIndexSql .MYSQL s.name m.drop_fields) ++
        m.add_fields.flatMap (addFieldSqls .MYSQL s.name) ++
        m.drop_fields.map (fun f =>
          "ALTER TABLE " ++ DBType.MYSQL.quote s.name ++ " DROP COLUMN " ++
            DBType.MYSQL.quote f.name) ++
        m.change_type_fields.map (fun f =>
          "ALTER TABLE " ++ DBType.MYSQL.quote s.name ++ " MODIFY " ++
            DBType.MYSQL.quote f.name ++ " " ++ f.type) ++
        m.add_indexes.map (fun i =>
          "CREATE " ++ (if i.unique then "UNIQUE " else "") ++ "INDEX " ++
            DBType.MYSQL.quote i.name ++ " on " ++ DBType.MYSQL.quote s.name ++
            " (" ++ pyJoin "," (i.fields.map (fun f => DBType.MYSQL.quote f.name)) ++
            ")")) := by
      unfold Migration.updateSqls
      rw [mapExcept_typeChange_mysql]
      rfl
    refine ⟨_,
      (if o.name ≠ s.name then
        ["ALTER TABLE " ++ DBType.MYSQL.quote o.name ++ " RENAME " ++
          DBType.MYSQL.quote s.name] else []) ++
      m.drop_indexes.filterMap (dropIndexSql .MYSQL s.name m.drop_fields) ++
      m.add_fields.flatMap (addFieldSqls .MYSQL s.name) ++
      m.drop_fields.map (fun f =>
        "ALTER TABLE " ++ DBType.MYSQL.quote s.name ++ " DROP COLUMN " ++
          DBType.MYSQL.quote f.name),
      m.add_indexes.map (fun i =>
        "CREATE " ++ (if i.unique then "UNIQUE " else "") ++ "INDEX " ++
          DBType.MYSQL.quote i.name ++ " on " ++ DBType.MYSQL.quote s.name ++
          " (" ++ pyJoin "," (i.fields.map (fun f => DBType.MYSQL.quote f.name)) ++
          ")"), hup, ?_, ?_⟩
    · rw [to_sql_both hs ho .MYSQL, hup]
      rfl
    · simp [List.append_assoc]
  · have hup : m.updateSqls s o .POSTGRES = .ok
        ((if o.name ≠ s.name then
          ["ALTER TABLE " ++ DBType.POSTGRES.quote o.name ++ " RENAME " ++
            DBType.POSTGRES.quote s.name] else []) ++
        m.drop_indexes.filterMap (dropIndexSql .POSTGRES s.name m.drop_fields) ++
        m.add_fields.flatMap (addFieldSqls .POSTGRES s.name) ++
        m.drop_fields.map (fun f =>
          "ALTER TABLE " ++ DBType.POSTGRES.quote s.name ++ " DROP COLUMN " ++
            DBType.POSTGRES.quote f.name) ++
        m.change_type_fields.map (fun f =>
          "ALTER TABLE " ++ DBType.POSTGRES.quote s.name ++ " ALTER COLUMN " ++
            DBType.POSTGRES.quote f.name ++ " TYPE " ++ f.type) ++
        m.add_indexes.map (fun i =>
          "CREATE " ++ (if i.unique then "UNIQUE " else "") ++ "INDEX " ++
            DBType.POSTGRES.quote i.name ++ " on " ++ DBType.POSTGRES.quote s.name ++
            " (" ++ pyJoin "," (i.fields.map (fun f => DBType.POSTGRES.quote f.name)) ++
            ")")) := by
      unfold Migration.updateSqls
      rw [mapExcept_typeChange_postgres]
      rfl
    refine ⟨_,
      (if o.name ≠ s.name then
        ["ALTER TABLE " ++ DBType.POSTGRES.quote o.name ++ " RENAME " ++
          DBType.POSTGRES.quote s.name] else []) ++
      m.drop_indexes.filterMap (dropIndexSql .POSTGRES s.name m.drop_fields) ++
      m.add_fields.flatMap (addFieldSqls .POSTGRES s.name) ++
      m.drop_fields.map (fun f =>
        "ALTER TABLE " ++ DBType.POSTGRES.quote s.name ++ " DROP COLUMN " ++
          DBType.POSTGRES.quote f.name),
      m.add_indexes.map (fun i =>
        "CREATE " ++ (if i.unique then "UNIQUE " else "") ++ "INDEX " ++
          DBType.POSTGRES.quote i.name ++ " on " ++ DBType.POSTGRES.quote s.name ++
          " (" ++ pyJoin "," (i.fields.map (fun f => DBType.POSTGRES.quote f.name)) ++
          ")"), hup, ?_, ?_⟩
    · rw [to_sql_both hs ho .POSTGRES, hup]
      rfl
    · simp [List.append_assoc]

/-- C5 witness: the migration changing `x` to `bigint` in table `t`. -/
theorem change_type_sqlite_error_witness :
    ({ schema := some { name := "t" }, old_schema := some { name := "t" },
       change_type_fields := [{ name := "x", type := "bigint" }] } : Migration).to_sql
      .SQLITE = .error "Type changing not allowed in SQLite" ∧
    (∃ l pre post,
      ({ schema := some { name := "t" }, old_schema := some { name := "t" },
         change_type_fields := [{ name := "x", type := "bigint" }] } : Migration).updateSqls
        { name := "t" } { name := "t" } .MYSQL = .ok l ∧
      ({ schema := some { name := "t" }, old_schema := some { name := "t" },
         change_type_fields := [{ name := "x", type := "bigint" }] } : Migration).to_sql
        .MYSQL = .ok (pyJoin ";\n" (appendLastSemicolon l)) ∧
      l = pre ++ ([(⟨"x", "", none, "bigint", false, false, true, ""⟩ : Field)]).map
        (fun f => "ALTER TABLE " ++ DBType.MYSQL.quote "t" ++ " MODIFY " ++
          DBType.MYSQL.quote f.name ++ " " ++ f.type) ++ post) := by
  have h := change_type_sqlite_error
    { schema := some { name := "t" }, old_schema := some { name := "t" },
      change_type_fields := [{ name := "x", type := "bigint" }] }
    { name := "t" } { name := "t" } rfl rfl (by simp)
  exact ⟨h.1, h.2.1⟩

/-- C6: the upsert clause shapes per dialect, for any insert whose base
statement (VALUES part) compiles: MySQL with `update_fields=["level"]` and
no conflict targets appends `ON DUPLICATE KEY UPDATE level = VALUES(level)`
(and errors when conflict targets are given); PostgreSQL with
`conflict_targets=["user_id"]` appends
`ON CONFLICT (user_id) DO UPDATE SET level = EXCLUDED.level` followed by
`RETURNING <primary>` (and errors without conflict targets); SQLite
accepts an optional conflict target, succeeding either way. -/
theorem upsert_dialect_shapes (S : Schema) (r0 : List (String × Val))
    (rest : List (List (String × Val))) (pk : Field)
    (hpk : S.primary_field = .ok pk) :
    (∀ b st, insertBase S (r0 :: rest) .MYSQL = .ok (b, st) →
      Insert.to_sql ⟨some S, r0 :: rest, ["level"], []⟩ .MYSQL =
        .ok (b ++ " ON DUPLICATE KEY UPDATE level = VALUES(level)" ++ ";")) ∧
    (∀ c cts, ∀ b st, insertBase S (r0 :: rest) .MYSQL = .ok (b, st) →
      Insert.to_sql ⟨some S, r0 :: rest, ["level"], c :: cts⟩ .MYSQL =
        .error "For MySQL - conflict_target not support") ∧
    (∀ b st, insertBase S (r0 :: rest) .POSTGRES = .ok (b, st) →
      Insert.to_sql ⟨some S, r0 :: rest, ["level"], ["user_id"]⟩ .POSTGRES =
        .ok (b ++ " ON CONFLICT (user_id) DO UPDATE SET level = EXCLUDED.level" ++
          " RETURNING " ++ pk.name ++ ";")) ∧
    (∀ b st, insertBase S (r0 :: rest) .POSTGRES = .ok (b, st) →
      Insert.to_sql ⟨some S, r0 :: rest, ["level"], []⟩ .POSTGRES =
        .error "For PostgresSQL - conflict_target must be provided") ∧
    (∀ cts b st, insertBase S (r0 :: rest) .SQLITE = .ok (b, st) →
      Insert.to_sql ⟨some S, r0 :: rest, ["level"], cts⟩ .SQLITE =
        .ok (b ++ (" ON CONFLICT" ++
          (if cts ≠ [] then "(" ++ pyJoin "," cts ++ ")" else "") ++
          " DO UPDATE SET level = excluded.level") ++ ";")) := by
  refine ⟨?_, ?_, ?_, ?_, ?_⟩
  · intro b st hb
    unfold Insert.to_sql
    dsimp only
    rw [hb]
    show Except.ok _ = _
    rw [String.append_empty]
    rfl
  · intro c cts b st hb
    unfold Insert.to_sql
    dsimp only
    rw [hb]
    rfl
  · intro b st hb
    unfold Insert.to_sql
    dsimp only
    rw [hb, hpk]
    show Except.ok _ = _
    simp only [String.append_assoc]
    rfl
  · intro b st hb
    unfold Insert.to_sql
    dsimp only
    rw [hb]
    rfl
  · intro cts b st hb
    unfold Insert.to_sql
    dsimp only
    rw [hb]
    show Except.ok _ = _
    rw [String.append_empty]
    rcases cts with _ | ⟨c, cs⟩
    · rfl
    · simp only [String.append_assoc]
      rfl

/-- C6 witness: a one-row insert of `level` into the `user_profile` schema
`S6` (primary field `id`), exercising all five dialect/conflict-target
combinations. -/
theorem upsert_dialect_shapes_witness :
    Insert.to_sql ⟨some S6, [row6], ["level"], []⟩ .MYSQL =
      .ok ("INSERT INTO `user_profile` (`level`) VALUES(:var0)" ++
        " ON DUPLICATE KEY UPDATE level = VALUES(level)" ++ ";") ∧
    Insert.to_sql ⟨some S6, [row6], ["level"], ["user_id"]⟩ .MYSQL =
      .error "For MySQL - conflict_target not support" ∧
    Insert.to_sql ⟨some S6, [row6], ["level"], ["user_id"]⟩ .POSTGRES =
      .ok ("INSERT INTO \"user_profile\" (\"level\") VALUES(:var0)" ++
        " ON CONFLICT (user_id) DO UPDATE SET level = EXCLUDED.level" ++
        " RETURNING " ++ "id" ++ ";") ∧
    Insert.to_sql ⟨some S6, [row6], ["level"], []⟩ .POSTGRES =
      .error "For PostgresSQL - conflict_target must be provided" ∧
    Insert.to_sql ⟨some S6, [row6], ["level"], ["user_id"]⟩ .SQLITE =
      .ok ("INSERT INTO `user_profile` (`level`) VALUES(:var0)" ++
        (" ON CONFLICT" ++
          (if (["user_id"] : List String) ≠ [] then "(" ++ pyJoin "," ["user_id"] ++ ")"
           else "") ++
          " DO UPDATE SET level = excluded.level") ++ ";") ∧
    Insert.to_sql ⟨some S6, [row6], ["level"], []⟩ .SQLITE =
      .ok ("INSERT INTO `user_profile` (`level`) VALUES(:var0)" ++
        (" ON CONFLICT" ++
          (if ([] : List String) ≠ [] then "(" ++ pyJoin "," [] ++ ")" else "") ++
          " DO UPDATE SET level = excluded.level") ++ ";") := by
  have h := upsert_dialect_shapes S6 row6 []
    { name := "id", type := "int", primary := true } rfl
  exact ⟨h.1 "INSERT INTO `user_profile` (`level`) VALUES(:var0)"
      ⟨1, [("var0", .val (.int 5))]⟩ rfl,
    h.2.1 "user_id" [] "INSERT INTO `user_profile` (`level`) VALUES(:var0)"
      ⟨1, [("var0", .val (.int 5))]⟩ rfl,
    h.2.2.1 "INSERT INTO \"user_profile\" (\"level\") VALUES(:var0)"
      ⟨1, [("var0", .val (.int 5))]⟩ rfl,
    h.2.2.2.1 "INSERT INTO \"user_profile\" (\"level\") VALUES(:var0)"
      ⟨1, [("var0", .val (.int 5))]⟩ rfl,
    h.2.2.2.2 ["user_id"] "INSERT INTO `user_profile` (`level`) VALUES(:var0)"
      ⟨1, [("var0", .val (.int 5))]⟩ rfl,
    h.2.2.2.2 [] "INSERT INTO `user_profile` (`level`) VALUES(:var0)"
      ⟨1, [("var0", .val (.int 5))]⟩ rfl⟩

theorem marksFreshly_refl (st : MarkerState) : MarksFreshly st st :=
  ⟨Nat.le_refl _, [], by simp, by simp⟩

theorem marksFreshly_trans {a b c : MarkerState}
    (h1 : MarksFreshly a b) (h2 : MarksFreshly b c) : MarksFreshly a c := by
  obtain ⟨hle1, nw1, hv1, hk1⟩ := h1
  obtain ⟨hle2, nw2, hv2, hk2⟩ := h2
  refine ⟨Nat.le_trans hle1 hle2, nw1 ++ nw2, by rw [hv2, hv1, List.append_assoc], ?_⟩
  rw [List.map_append, hk1, hk2, ← List.map_append]
  congr 1
  have key := List.range'_append_1 a.varIndex (b.varIndex - a.varIndex)
    (c.varIndex - b.varIndex)
  rw [show a.varIndex + (b.varIndex - a.varIndex) = b.varIndex from by omega] at key
  rw [show c.varIndex - b.varIndex + (b.varIndex - a.varIndex) =
    c.varIndex - a.varIndex from by omega] at key
  exact key

theorem mark_marksFreshly (st : MarkerState) (v : Operand) :
    MarksFreshly st (st.mark v).2 := by
  refine ⟨Nat.le_succ _, [(varName st.varIndex, v)], rfl, ?_⟩
  simp [MarkerState.mark]

theorem bind_cont_fresh {α : Type _} {st : MarkerState}
    {F : Except String (α × MarkerState)}
    {k : α × MarkerState → Except String (String × MarkerState)}
    {res : String × MarkerState}
    (hF : ∀ p, F = .ok p → MarksFreshly st p.2)
    (hk : ∀ p r, k p = .ok r → r.2 = p.2)
    (h : F >>= k = .ok res) : MarksFreshly st res.2 := by
  cases hf : F with
  | error err =>
    rw [hf] at h
    cases h
  | ok p =>
    rw [hf] at h
    have hkr : k p = .ok res := h
    rw [hk p res hkr]
    exact hF p hf

mutual

theorem parseOperand_fresh (st : MarkerState) (t : DBType) (o : Operand)
    (res : String × MarkerState) (h : parseOperand st t o = .ok res) :
    MarksFreshly st res.2 := by
  match o with
  | .fld f =>
    unfold parseOperand at h
    cases h
    exact marksFreshly_refl st
  | .sub e =>
    unfold parseOperand at h
    exact exprToSql_fresh e st t res h
  | .val v =>
    unfold parseOperand at h
    cases h
    exact mark_marksFreshly st _
  | .lst os =>
    unfold parseOperand at h
    cases h
    exact mark_marksFreshly st _
termination_by 2 * sizeOf o

theorem exprToSql_fresh (e : SQLExpression) (st : MarkerState) (t : DBType)
    (res : String × MarkerState) (h : exprToSql e st t = .ok res) :
    MarksFreshly st res.2 := by
  match e with
  | .mk none vals =>
    unfold exprToSql at h
    cases h
  | .mk (some f) vals =>
    unfold exprToSql at h
    exact exprFold_fresh st (t.quote f.name) t vals res h
termination_by 2 * sizeOf e

theorem exprStep_fresh (st : MarkerState) (sql : String) (t : DBType) (op : Opr)
    (o : Operand) (res : String × MarkerState) (h : exprStep st sql t op o = .ok res) :
    MarksFreshly st res.2 := by
  match op, o with
  | .IN, .sub e =>
    unfold exprStep at h
    exact bind_cont_fresh (fun p hp => exprToSql_fresh e st t p hp)
      (by rintro ⟨s1, st1⟩ r hr; cases hr; rfl) h
  | .IN, .lst os =>
    unfold exprStep at h
    exact bind_cont_fresh (fun p hp => parseList_fresh st t os p hp)
      (by rintro ⟨ss, st1⟩ r hr; cases hr; rfl) h
  | .IN, .val v => unfold exprStep at h; cases h
  | .IN, .fld f => unfold exprStep at h; cases h
  | .LK, .val v =>
    unfold exprStep at h
    cases h
    exact mark_marksFreshly st _
  | .LK, .fld f =>
    unfold exprStep at h
    cases h
    exact mark_marksFreshly st _
  | .LK, .sub e =>
    unfold exprStep at h
    cases h
    exact mark_marksFreshly st _
  | .LK, .lst os =>
    unfold exprStep at h
    cases h
    exact mark_marksFreshly st _
  | .EQ, .sub e =>
    unfold exprStep at h
    exact bind_cont_fresh (fun p hp => exprToSql_fresh e st t p hp)
      (by rintro ⟨s1, st1⟩ r hr; cases hr; rfl) h
  | .NE, .sub e =>
    unfold exprStep at h
    exact bind_cont_fresh (fun p hp => exprToSql_fresh e st t p hp)
      (by rintro ⟨s1, st1⟩ r hr; cases hr; rfl) h
  | .GT, .sub e =>
    unfold exprStep at h
    exact bind_cont_fresh (fun p hp => exprToSql_fresh e st t p hp)
      (by rintro ⟨s1, st1⟩ r hr; cases hr; rfl) h
  | .GE, .sub e =>
    unfold exprStep at h
    exact bind_cont_fresh (fun p hp => exprToSql_fresh e st t p hp)
      (by rintro ⟨s1, st1⟩ r hr; cases hr; rfl) h
  | .LT, .sub e =>
    unfold exprStep at h
    exact bind_cont_fresh (fun p hp => exprToSql_fresh e st t p hp)
      (by rintro ⟨s1, st1⟩ r hr; cases hr; rfl) h
  | .LE, .sub e =>
    unfold exprStep at h
    exact bind_cont_fresh (fun p hp => exprToSql_fresh e st t p hp)
      (by rintro ⟨s1, st1⟩ r hr; cases hr; rfl) h
  | .ADD, .sub e =>
    unfold exprStep at h
    exact bind_cont_fresh (fun p hp => exprToSql_fresh e st t p hp)
      (by rintro ⟨s1, st1⟩ r hr; cases hr; rfl) h
  | .SUB, .sub e =>
    unfold exprStep at h
    exact bind_cont_fresh (fun p hp => exprToSql_fresh e st t p hp)
      (by rintro ⟨s1, st1⟩ r hr; cases hr; rfl) h
  | .MUL, .sub e =>
    unfold exprStep at h
    exact bind_cont_fresh (fun p hp => exprToSql_fresh e st t p hp)
      (by rintro ⟨s1, st1⟩ r hr; cases hr; rfl) h
  | .DIV, .sub e =>
    unfold exprStep at h
    exact bind_cont_fresh (fun p hp => exprToSql_fresh e st t p hp)
      (by rintro ⟨s1, st1⟩ r hr; cases hr; rfl) h
  | .AND, .sub e =>
    unfold exprStep at h
    exact bind_cont_fresh (fun p hp => exprToSql_fresh e st t p hp)
      (by rintro ⟨s1, st1⟩ r hr; cases hr; rfl) h
  | .OR, .sub e =>
    unfold exprStep at h
    exact bind_cont_fresh (fun p hp => exprToSql_fresh e st t p hp)
      (by rintro ⟨s1, st1⟩ r hr; cases hr; rfl) h
  | .EQ, .val v =>
    unfold exprStep at h
    exact bind_cont_fresh (fun p hp => parseOperand_fresh st t (.val v) p hp)
      (by rintro ⟨s1, st1⟩ r hr; cases hr; rfl) h
  | .EQ, .fld f =>
    unfold exprStep at h
    exact bind_cont_fresh (fun p hp => parseOperand_fresh st t (.fld f) p hp)
      (by rintro ⟨s1, st1⟩ r hr; cases hr; rfl) h
  | .EQ, .lst os =>
    unfold exprStep at h
    exact bind_cont_fresh (fun p hp => parseOperand_fresh st t (.lst os) p hp)
      (by rintro ⟨s1, st1⟩ r hr; cases hr; rfl) h
  | .NE, .val v =>
    unfold exprStep at h
    exact bind_cont_fresh (fun p hp => parseOperand_fresh st t (.val v) p hp)
      (by rintro ⟨s1, st1⟩ r hr; cases hr; rfl) h
  | .NE, .fld f =>
    unfold exprStep at h
    exact bind_cont_fresh (fun p hp => parseOperand_fresh st t (.fld f) p hp)
      (by rintro ⟨s1, st1⟩ r hr; cases hr; rfl) h
  | .NE, .lst os =>
    unfold exprStep at h
    exact bind_cont_fresh (fun p hp => parseOperand_fresh st t (.lst os) p hp)
      (by rintro ⟨s1, st1⟩ r hr; cases hr; rfl) h
  | .GT, .val v =>
    unfold exprStep at h
    exact bind_cont_fresh (fun p hp => parseOperand_fresh st t (.val v) p hp)
      (by rintro ⟨s1, st1⟩ r hr; cases hr; rfl) h
  | .GT, .fld f =>
    unfold exprStep at h
    exact bind_cont_fresh (fun p hp => parseOperand_fresh st t (.fld f) p hp)
      (by rintro ⟨s1, st1⟩ r hr; cases hr; rfl) h
  | .GT, .lst os =>
    unfold exprStep at h
    exact bind_cont_fresh (fun p hp => parseOperand_fresh st t (.lst os) p hp)
      (by rintro ⟨s1, st1⟩ r hr; cases hr; rfl) h
  | .GE, .val v =>
    unfold exprStep at h
    exact bind_cont_fresh (fun p hp => parseOperand_fresh st t (.val v) p hp)
      (by rintro ⟨s1, st1⟩ r hr; cases hr; rfl) h
  | .GE, .fld f =>
    unfold exprStep at h
    exact bind_cont_fresh (fun p hp => parseOperand_fresh st t (.fld f) p hp)
      (by rintro ⟨s1, st1⟩ r hr; cases hr; rfl) h
  | .GE, .lst os =>
    unfold exprStep at h
    exact bind_cont_fresh (fun p hp => parseOperand_fresh st t (.lst os) p hp)
      (by rintro ⟨s1, st1⟩ r hr; cases hr; rfl) h
  | .LT, .val v =>
    unfold exprStep at h
    exact bind_cont_fresh (fun p hp => parseOperand_fresh st t (.val v) p hp)
      (by rintro ⟨s1, st1⟩ r hr; cases hr; rfl) h
  | .LT, .fld f =>
    unfold exprStep at h
    exact bind_cont_fresh (fun p hp => parseOperand_fresh st t (.fld f) p hp)
      (by rintro ⟨s1, st1⟩ r hr; cases hr; rfl) h
  | .LT, .lst os =>
    unfold exprStep at h
    exact bind_cont_fresh (fun p hp => parseOperand_fresh st t (.lst os) p hp)
      (by rintro ⟨s1, st1⟩ r hr; cases hr; rfl) h
  | .LE, .val v =>
    unfold exprStep at h
    exact bind_cont_fresh (fun p hp => parseOperand_fresh st t (.val v) p hp)
      (by rintro ⟨s1, st1⟩ r hr; cases hr; rfl) h
  | .LE, .fld f =>
    unfold exprStep at h
    exact bind_cont_fresh (fun p hp => parseOperand_fresh st t (.fld f) p hp)
      (by rintro ⟨s1, st1⟩ r hr; cases hr; rfl) h
  | .LE, .lst os =>
    unfold exprStep at h
    exact bind_cont_fresh (fun p hp => parseOperand_fresh st t (.lst os) p hp)
      (by rintro ⟨s1, st1⟩ r hr; cases hr; rfl) h
  | .ADD, .val v =>
    unfold exprStep at h
    exact bind_cont_fresh (fun p hp => parseOperand_fresh st t (.val v) p hp)
      (by rintro ⟨s1, st1⟩ r hr; cases hr; rfl) h
  | .ADD, .fld f =>
    unfold exprStep at h
    exact bind_cont_fresh (fun p hp => parseOperand_fresh st t (.fld f) p hp)
      (by rintro ⟨s1, st1⟩ r hr; cases hr; rfl) h
  | .ADD, .lst os =>
    unfold exprStep at h
    exact bind_cont_fresh (fun p hp => parseOperand_fresh st t (.lst os) p hp)
      (by rintro ⟨s1, st1⟩ r hr; cases hr; rfl) h
  | .SUB, .val v =>
    unfold exprStep at h
    exact bind_cont_fresh (fun p hp => parseOperand_fresh st t (.val v) p hp)
      (by rintro ⟨s1, st1⟩ r hr; cases hr; rfl) h
  | .SUB, .fld f =>
    unfold exprStep at h
    exact bind_cont_fresh (fun p hp => parseOperand_fresh st t (.fld f) p hp)
      (by rintro ⟨s1, st1⟩ r hr; cases hr; rfl) h
  | .SUB, .lst os =>
    unfold exprStep at h
    exact bind_cont_fresh (fun p hp => parseOperand_fresh st t (.lst os) p hp)
      (by rintro ⟨s1, st1⟩ r hr; cases hr; rfl) h
  | .MUL, .val v =>
    unfold exprStep at h
    exact bind_cont_fresh (fun p hp => parseOperand_fresh st t (.val v) p hp)
      (by rintro ⟨s1, st1⟩ r hr; cases hr; rfl) h
  | .MUL, .fld f =>
    unfold exprStep at h
    exact bind_cont_fresh (fun p hp => parseOperand_fresh st t (.fld f) p hp)
      (by rintro ⟨s1, st1⟩ r hr; cases hr; rfl) h
  | .MUL, .lst os =>
    unfold exprStep at h
    exact bind_cont_fresh (fun p hp => parseOperand_fresh st t (.lst os) p hp)
      (by rintro ⟨s1, st1⟩ r hr; cases hr; rfl) h
  | .DIV, .val v =>
    unfold exprStep at h
    exact bind_cont_fresh (fun p hp => parseOperand_fresh st t (.val v) p hp)
      (by rintro ⟨s1, st1⟩ r hr; cases hr; rfl) h
  | .DIV, .fld f =>
    unfold exprStep at h
    exact bind_cont_fresh (fun p hp => parseOperand_fresh st t (.fld f) p hp)
      (by rintro ⟨s1, st1⟩ r hr; cases hr; rfl) h
  | .DIV, .lst os =>
    unfold exprStep at h
    exact bind_cont_fresh (fun p hp => parseOperand_fresh st t (.lst os) p hp)
      (by rintro ⟨s1, st1⟩ r hr; cases hr; rfl) h
  | .AND, .val v =>
    unfold exprStep at h
    exact bind_cont_fresh (fun p hp => parseOperand_fresh st t (.val v) p hp)
      (by rintro ⟨s1, st1⟩ r hr; cases hr; rfl) h
  | .AND, .fld f =>
    unfold exprStep at h
    exact bind_cont_fresh (fun p hp => parseOperand_fresh st t (.fld f) p hp)
      (by rintro ⟨s1, st1⟩ r hr; cases hr; rfl) h
  | .AND, .lst os =>
    unfold exprStep at h
    exact bind_cont_fresh (fun p hp => parseOperand_fresh st t (.lst os) p hp)
      (by rintro ⟨s1, st1⟩ r hr; cases hr; rfl) h
  | .OR, .val v =>
    unfold exprStep at h
    exact bind_cont_fresh (fun p hp => parseOperand_fresh st t (.val v) p hp)
      (by rintro ⟨s1, st1⟩ r hr; cases hr; rfl) h
  | .OR, .fld f =>
    unfold exprStep at h
    exact bind_cont_fresh (fun p hp => parseOperand_fresh st t (.fld f) p hp)
      (by rintro ⟨s1, st1⟩ r hr; cases hr; rfl) h
  | .OR, .lst os =>
    unfold exprStep at h
    exact bind_cont_fresh (fun p hp => parseOperand_fresh st t (.lst os) p hp)
      (by rintro ⟨s1, st1⟩ r hr; cases hr; rfl) h
termination_by 2 * sizeOf o + 1

theorem exprFold_fresh (st : MarkerState) (sql : String) (t : DBType)
    (vals : List (Opr × Operand)) (res : String × MarkerState)
    (h : exprFold st sql t vals = .ok res) : MarksFreshly st res.2 := by
  match vals with
  | [] =>
    unfold exprFold at h
    cases h
    exact marksFreshly_refl st
  | (op, o) :: rest =>
    unfold exprFold at h
    cases he : exprStep st sql t op o with
    | error err => rw [he] at h; cases h
    | ok p =>
      rw [he] at h
      obtain ⟨s1, st1⟩ := p
      exact marksFreshly_trans (exprStep_fresh st sql t op o (s1, st1) he)
        (exprFold_fresh st1 s1 t rest res h)
termination_by 2 * sizeOf vals

theorem parseList_fresh (st : MarkerState) (t : DBType) (os : List Operand)
    (res : List String × MarkerState) (h : parseList st t os = .ok res) :
    MarksFreshly st res.2 := by
  match os with
  | [] =>
    unfold parseList at h
    cases h
    exact marksFreshly_refl st
  | o :: rest =>
    unfold parseList at h
    cases he : parseOperand st t o with
    | error err => rw [he] at h; cases h
    | ok p =>
      obtain ⟨s1, st1⟩ := p
      rw [he] at h
      have h2 : (do
          let (ss, st'') ← parseList st1 t rest
          pure (s1 :: ss, st'') : Except String (List String × MarkerState)) =
          .ok res := h
      cases he2 : parseList st1 t rest with
      | error err => rw [he2] at h2; cases h2
      | ok q =>
        obtain ⟨ss, st2⟩ := q
        rw [he2] at h2
        cases h2
        exact marksFreshly_trans (parseOperand_fresh st t o (s1, st1) he)
          (parseList_fresh st1 t rest (ss, st2) he2)
termination_by 2 * sizeOf os

end

theorem wf_of_marksFreshly {a b : MarkerState} (h : MarksFreshly a b)
    (hw : WfState a) : WfState b := by
  obtain ⟨hle, nw, hv, hk⟩ := h
  unfold WfState at hw ⊢
  rw [hv, List.map_append, hw, hk, ← List.map_append]
  congr 1
  have key := List.range'_append_1 0 a.varIndex (b.varIndex - a.varIndex)
  rw [show 0 + a.varIndex = a.varIndex from by omega] at key
  rw [show b.varIndex - a.varIndex + a.varIndex = b.varIndex from by omega] at key
  rw [List.range_eq_range', List.range_eq_range']
  exact key

theorem nodup_of_wf {st : MarkerState} (h : WfState st) :
    (st.vars.map Prod.fst).Nodup := by
  rw [h]
  exact List.Nodup.map (fun a b hab => varName_inj hab) (List.nodup_range _)

/-- C7: within one statement compilation (one shared marker scope), every
literal operand registered as a parameter gets a placeholder name formed
from the strictly increasing counter, bindings are only ever appended
(each to exactly the operand it replaced), no placeholder name is ever
reused — a compilation started on a well-formed scope ends with
pairwise-distinct placeholder names — and compiling
`WHERE (a = 1) AND (b = 2)` yields the two distinct placeholders `var0`
and `var1` bound to 1 and 2 respectively. -/
theorem marker_placeholders_fresh (e : SQLExpression) (st : MarkerState) (t : DBType)
    (out : String) (st' : MarkerState) (hwf : WfState st)
    (h : exprToSql e st t = .ok (out, st')) :
    (st.varIndex ≤ st'.varIndex ∧
      ∃ nw, st'.vars = st.vars ++ nw ∧
        nw.map Prod.fst =
          (List.range' st.varIndex (st'.varIndex - st.varIndex)).map varName) ∧
    WfState st' ∧
    (st'.vars.map Prod.fst).Nodup ∧
    exprToSql exprC7 {} .MYSQL =
      .ok ("(`a` = :var0) AND (`b` = :var1)",
        ⟨2, [("var0", .val (.int 1)), ("var1", .val (.int 2))]⟩) := by
  have hfresh : MarksFreshly st st' := exprToSql_fresh e st t (out, st') h
  have hwf' := wf_of_marksFreshly hfresh hwf
  refine ⟨hfresh, hwf', nodup_of_wf hwf', ?_⟩
  simp only [exprC7, Field.eqE, SQLExpression.andE, SQLExpression.field,
    SQLExpression.values, List.cons_append, List.nil_append]
  simp only [exprToSql, exprFold, exprStep, parseOperand, MarkerState.mark,
    Except.bind, bind, pure, Except.pure]
  rfl

/-- C7 witness: the compilation of `(a == 1) & (b == 2)` from a fresh
scope. -/
theorem marker_placeholders_fresh_witness :
    ((0 : Nat) ≤ 2 ∧
      ∃ nw, ([("var0", Operand.val (Val.int 1)), ("var1", Operand.val (Val.int 2))] :
          List (String × Operand)) = [] ++ nw ∧
        nw.map Prod.fst = (List.range' 0 (2 - 0)).map varName) ∧
    WfState ⟨2, [("var0", Operand.val (Val.int 1)), ("var1", Operand.val (Val.int 2))]⟩ ∧
    (([("var0", Operand.val (Val.int 1)), ("var1", Operand.val (Val.int 2))]).map
      Prod.fst).Nodup ∧
    exprToSql exprC7 {} .MYSQL =
      .ok ("(`a` = :var0) AND (`b` = :var1)",
        ⟨2, [("var0", .val (.int 1)), ("var1", .val (.int 2))]⟩) := by
  have hconc : exprToSql exprC7 {} .MYSQL =
      .ok ("(`a` = :var0) AND (`b` = :var1)",
        ⟨2, [("var0", .val (.int 1)), ("var1", .val (.int 2))]⟩) := by
    simp only [exprC7, Field.eqE, SQLExpression.andE, SQLExpression.field,
      SQLExpression.values, List.cons_append, List.nil_append]
    simp only [exprToSql, exprFold, exprStep, parseOperand, MarkerState.mark,
      Except.bind, bind, pure, Except.pure]
    rfl
  exact marker_placeholders_fresh exprC7 {} .MYSQL "(`a` = :var0) AND (`b` = :var1)"
    ⟨2, [("var0", .val (.int 1)), ("var1", .val (.int 2))]⟩ (by rfl) hconc

theorem selectCore_flags (c : Crud) (count : Bool) (t : DBType)
    (fields ignore_fields : List Field) (u1 s1 : Bool) :
    Crud.selectCore { c with _for_update := u1, _for_share := s1 } count t
      fields ignore_fields = c.selectCore count t fields ignore_fields := by
  obtain ⟨sch, w, rw', lim, off, ob, oba, fu, fs, ui, ii, fi, sf⟩ := c
  rfl

theorem to_select_sql_decomp (c : Crud) (count : Bool) (t : DBType)
    (fields ignore_fields : List Field) :
    Crud.to_select_sql c count t fields ignore_fields =
      Except.bind (c.selectCore count t fields ignore_fields) (fun p =>
        Except.bind (c.lockClause count t) (fun lock => .ok (p.1 ++ lock ++ ";"))) := by
  unfold Crud.to_select_sql
  cases c.selectCore count t fields ignore_fields with
  | error e => rfl
  | ok p =>
    obtain ⟨core, st⟩ := p
    rfl

/-- C10: for a SQLite select compilation (`count=False`) whose underlying
query compiles, setting `for_update` makes `to_select_sql` raise the
unsupported-operation error, while setting only `for_share` neither raises
nor emits any row-lock clause: the output is identical to the compilation
without `for_share` — unlike MySQL, which appends ` LOCK IN SHARE MODE`,
and PostgreSQL, which appends ` FOR SHARE`. -/
theorem select_locks_sqlite (c : Crud) (s0 : String)
    (hbase : Crud.to_select_sql { c with _for_update := false, _for_share := false }
      false .SQLITE [] [] = .ok s0) :
    Crud.to_select_sql { c with _for_update := true } false .SQLITE [] [] =
      .error "For SQLite - do not support FOR UPDATE lock" ∧
    Crud.to_select_sql { c with _for_update := false, _for_share := true }
        false .SQLITE [] [] =
      Crud.to_select_sql { c with _for_update := false, _for_share := false }
        false .SQLITE [] [] ∧
    (∀ s1, Crud.to_select_sql { c with _for_update := false, _for_share := false }
        false .MYSQL [] [] = .ok s1 →
      ∃ core, s1 = core ++ ";" ∧
        Crud.to_select_sql { c with _for_update := false, _for_share := true }
          false .MYSQL [] [] = .ok (core ++ " LOCK IN SHARE MODE" ++ ";")) ∧
    (∀ s1, Crud.to_select_sql { c with _for_update := false, _for_share := false }
        false .POSTGRES [] [] = .ok s1 →
      ∃ core, s1 = core ++ ";" ∧
        Crud.to_select_sql { c with _for_update := false, _for_share := true }
          false .POSTGRES [] [] = .ok (core ++ " FOR SHARE" ++ ";")) := by
  rw [to_select_sql_decomp] at hbase
  rw [show Crud.selectCore { c with _for_update := false, _for_share := false }
      false .SQLITE [] [] = c.selectCore false .SQLITE [] [] from
    selectCore_flags c false .SQLITE [] [] false false] at hbase
  refine ⟨?_, ?_, ?_, ?_⟩
  · rw [to_select_sql_decomp]
    rw [show Crud.selectCore { c with _for_update := true } false .SQLITE [] [] =
      c.selectCore false .SQLITE [] [] from selectCore_flags c false .SQLITE [] []
        true c._for_share]
    cases hsc : c.selectCore false .SQLITE [] [] with
    | error err =>
      rw [hsc] at hbase
      simp only [Except.bind] at hbase
      cases hbase
    | ok p =>
      obtain ⟨core, st⟩ := p
      rfl
  · rw [to_select_sql_decomp, to_select_sql_decomp]
    rw [show Crud.selectCore { c with _for_update := false, _for_share := true }
        false .SQLITE [] [] = c.selectCore false .SQLITE [] [] from
      selectCore_flags c false .SQLITE [] [] false true]
    rw [show Crud.selectCore { c with _for_update := false, _for_share := false }
        false .SQLITE [] [] = c.selectCore false .SQLITE [] [] from
      selectCore_flags c false .SQLITE [] [] false false]
    rfl
  · intro s1 hs1
    rw [to_select_sql_decomp] at hs1
    rw [show Crud.selectCore { c with _for_update := false, _for_share := false }
        false .MYSQL [] [] = c.selectCore false .MYSQL [] [] from
      selectCore_flags c false .MYSQL [] [] false false] at hs1
    rw [to_select_sql_decomp]
    rw [show Crud.selectCore { c with _for_update := false, _for_share := true }
        false .MYSQL [] [] = c.selectCore false .MYSQL [] [] from
      selectCore_flags c false .MYSQL [] [] false true]
    cases hsc : c.selectCore false .MYSQL [] [] with
    | error err =>
      rw [hsc] at hs1
      simp only [Except.bind] at hs1
      cases hs1
    | ok p =>
      rw [hsc] at hs1
      obtain ⟨core, st⟩ := p
      simp only [Except.bind] at hs1
      have hs1' : (core ++ "" ++ ";" : String) = s1 :=
        (Except.ok.injEq _ _).mp hs1
      refine ⟨core, ?_, ?_⟩
      · rw [← hs1', String.append_empty]
      · rfl
  · intro s1 hs1
    rw [to_select_sql_decomp] at hs1
    rw [show Crud.selectCore { c with _for_update := false, _for_share := false }
        false .POSTGRES [] [] = c.selectCore false .POSTGRES [] [] from
      selectCore_flags c false .POSTGRES [] [] false false] at hs1
    rw [to_select_sql_decomp]
    rw [show Crud.selectCore { c with _for_update := false, _for_share := true }
        false .POSTGRES [] [] = c.selectCore false .POSTGRES [] [] from
      selectCore_flags c false .POSTGRES [] [] false true]
    cases hsc : c.selectCore false .POSTGRES [] [] with
    | error err =>
      rw [hsc] at hs1
      simp only [Except.bind] at hs1
      cases hs1
    | ok p =>
      rw [hsc] at hs1
      obtain ⟨core, st⟩ := p
      simp only [Except.bind] at hs1
      have hs1' : (core ++ "" ++ ";" : String) = s1 :=
        (Except.ok.injEq _ _).mp hs1
      refine ⟨core, ?_, ?_⟩
      · rw [← hs1', String.append_empty]
      · rfl

theorem select_locks_sqlite_witness :
    Crud.to_select_sql { crud10 with _for_update := false, _for_share := false }
        false .SQLITE [] [] =
      .ok "SELECT `id`, `level`, `user_id` FROM `user_profile`;" ∧
    (Crud.to_select_sql { crud10 with _for_update := true } false .SQLITE [] [] =
      .error "For SQLite - do not support FOR UPDATE lock" ∧
    Crud.to_select_sql { crud10 with _for_update := false, _for_share := true }
        false .SQLITE [] [] =
      Crud.to_select_sql { crud10 with _for_update := false, _for_share := false }
        false .SQLITE [] [] ∧
    (∀ s1, Crud.to_select_sql { crud10 with _for_update := false, _for_share := false }
        false .MYSQL [] [] = .ok s1 →
      ∃ core, s1 = core ++ ";" ∧
        Crud.to_select_sql { crud10 with _for_update := false, _for_share := true }
          false .MYSQL [] [] = .ok (core ++ " LOCK IN SHARE MODE" ++ ";")) ∧
    (∀ s1, Crud.to_select_sql { crud10 with _for_update := false, _for_share := false }
        false .POSTGRES [] [] = .ok s1 →
      ∃ core, s1 = core ++ ";" ∧
        Crud.to_select_sql { crud10 with _for_update := false, _for_share := true }
          false .POSTGRES [] [] = .ok (core ++ " FOR SHARE" ++ ";"))) :=
  ⟨by rfl,
    select_locks_sqlite crud10
      "SELECT `id`, `level`, `user_id` FROM `user_profile`;" (by rfl)⟩

end Danio
